import Mathlib

/-!
Verification development for the agent-trust-layer core.

This file gives a shallow embedding, in Lean 4, of the parts of the
agent-trust-layer TypeScript code that the verified properties concern:

* the approval store (`src/core/approvals.ts`, `InMemoryApprovalStore`,
  whose validation and security rules mirror `SupabaseApprovalStore`);
* the commit-tool boundary (`CommitToolBoundary.verifyCommitEligibility`);
* the trust gate (`src/core/trust-gates.ts`, `TrustGate.evaluate` and
  `TrustGate.evaluateWithApproval`);
* the sandbox fail-closed paths (`DockerSandbox.executeWithIsolation`,
  `FailClosedSandbox.execute`);
* the workflow orchestrator stage loop (`AgentOrchestrator.runWorkflow`).

Modelling conventions:

* timestamps are natural numbers (milliseconds since the epoch); the
  TypeScript comparison `new Date(a) < new Date(b)` becomes `a < b`;
* record ids are strings; the zod `.uuid()` validator is modelled by a
  shape check (36 characters, hyphens at positions 8/13/18/23, hex
  elsewhere);
* opaque JSON payloads (`actionPayload`, `metadata`, tool arguments) are
  not modelled: no verified property inspects them.  The approval-request
  `context` object is modelled by its one field the code reads,
  `context.sandboxId`;
* stateful store methods become pure functions returning
  `Except String α × State`: a thrown exception is `.error` paired with
  the state as it was at the throw point;
* external facilities (Docker, the LLM driving an agent) are parameters:
  the Docker probe outcome and the per-stage agent behaviour are inputs
  to the embedded functions.
-/

deriving instance DecidableEq for Except

namespace AgentTrustLayer

/-- Trust levels L0 < L1 < L2 < L3 < L4 (`TrustLevel` in schemas). -/
inductive TrustLevel
  | L0 | L1 | L2 | L3 | L4
deriving DecidableEq, Repr

/-- Position of a trust level in `TRUST_ORDER = ["L0","L1","L2","L3","L4"]`. -/
def TrustLevel.idx : TrustLevel → Nat
  | .L0 => 0
  | .L1 => 1
  | .L2 => 2
  | .L3 => 3
  | .L4 => 4

/-- Approval request status (`ApprovalStatus` in schemas). -/
inductive ApprovalStatus
  | PENDING | APPROVED | REJECTED | EXPIRED
deriving DecidableEq, Repr

/-- The string stored in the `status` column for each status value. -/
def ApprovalStatus.asString : ApprovalStatus → String
  | .PENDING => "PENDING"
  | .APPROVED => "APPROVED"
  | .REJECTED => "REJECTED"
  | .EXPIRED => "EXPIRED"

/-- Lower-cased status string, as used in the reason `Approval rejected` /
`Approval expired` of `evaluateWithApproval`. -/
def ApprovalStatus.asLowerString : ApprovalStatus → String
  | .PENDING => "pending"
  | .APPROVED => "approved"
  | .REJECTED => "rejected"
  | .EXPIRED => "expired"

/-- Reviewer verdict (`ReviewerVerdict` in schemas). -/
inductive ReviewerVerdict
  | PASS | FAIL
deriving DecidableEq, Repr

/-- Decision type (`DecisionType` in schemas). -/
inductive DecisionType
  | APPROVE | REJECT
deriving DecidableEq, Repr

/-- Tool capability (`Capability` in schemas). -/
inductive Capability
  | READ | PROPOSE | WRITE | SIDE_EFFECTS
deriving DecidableEq, Repr

/-- Tool risk (`Risk` in schemas). -/
inductive Risk
  | LOW | MEDIUM | HIGH | CRITICAL
deriving DecidableEq, Repr

/-- Tool execution mode (`ExecutionMode` in schemas). -/
inductive ExecutionMode
  | DIRECT | SANDBOX_ONLY
deriving DecidableEq, Repr

/-- Workflow stage (`WorkflowStage` in schemas); the enumeration is closed,
so the runtime membership test against `VALID_STAGES` is always true in the
embedding. -/
inductive WorkflowStage
  | plan | execute | review | commit
deriving DecidableEq, Repr

/-- Hex digit test used by the uuid shape check. -/
def isHexDigit (c : Char) : Bool :=
  c.isDigit || ('a' ≤ c && c ≤ 'f') || ('A' ≤ c && c ≤ 'F')

/-- Shape check modelling the zod `.uuid()` validator: 36 characters, with
hyphens at positions 8, 13, 18 and 23 and hex digits elsewhere. -/
def isUuid (s : String) : Bool :=
  let cs := s.toList
  cs.length == 36 &&
    (List.range 36).all fun i =>
      match cs.get? i with
      | some c =>
          if i == 8 || i == 13 || i == 18 || i == 23 then c == '-' else isHexDigit c
      | none => false

/-! ## Approval store data model (`src/core/approvals.ts`) -/

/-- A stored approval request (`ApprovalRequest`).  `contextSandboxId` models
the one field of the opaque `context` object the code reads
(`context?.sandboxId` in commit gate 8); the opaque `actionPayload` is not
modelled. -/
structure ApprovalRequest where
  id : String
  createdAt : Nat
  domain : String
  runId : String
  workflowName : String
  requestedBy : String
  trustLevel : TrustLevel
  actionType : String
  status : ApprovalStatus
  expiresAt : Nat
  reviewerVerdict : Option ReviewerVerdict
  reviewerNotes : Option String
  autoApproveEligible : Bool
  autoApproveReason : Option String
  contextSandboxId : Option String
deriving DecidableEq, Repr

/-- A stored approval decision (`ApprovalDecision`); the opaque `metadata`
object is not modelled. -/
structure ApprovalDecision where
  id : String
  createdAt : Nat
  approvalRequestId : String
  decidedBy : String
  decision : DecisionType
  notes : Option String
deriving DecidableEq, Repr

/-- State of the in-memory approval store (`InMemoryApprovalStore`): the two
`Map`s in iteration (= insertion) order.  The decisions map is keyed by
`approvalRequestId`. -/
structure ApprovalStoreState where
  requests : List ApprovalRequest
  decisions : List ApprovalDecision
deriving DecidableEq, Repr

/-- Input to `createRequest` (`CreateApprovalRequestInput`). -/
structure CreateApprovalRequestInput where
  domain : String
  runId : String
  workflowName : String
  requestedBy : String
  trustLevel : TrustLevel
  actionType : String
  reviewerVerdict : Option ReviewerVerdict
  reviewerNotes : Option String
  contextSandboxId : Option String
deriving DecidableEq, Repr

/-- Input to `createDecision` (`CreateDecisionInput`). -/
structure CreateDecisionInput where
  approvalRequestId : String
  decidedBy : String
  decision : DecisionType
  notes : Option String
deriving DecidableEq, Repr

/-- `CreateApprovalRequestSchema.parse` success condition: `runId` is a uuid,
the string fields have `min(1)`, and the domain is in the closed domain
enumeration `{asi, land}` of the schemas. -/
def validCreateRequestInput (input : CreateApprovalRequestInput) : Bool :=
  isUuid input.runId &&
    input.workflowName ≠ "" &&
    input.requestedBy ≠ "" &&
    input.actionType ≠ "" &&
    (input.domain == "asi" || input.domain == "land")

/-- `CreateDecisionSchema.parse` success condition. -/
def validCreateDecisionInput (input : CreateDecisionInput) : Bool :=
  isUuid input.approvalRequestId && input.decidedBy ≠ ""

/-- `DEFAULT_EXPIRY[trustLevel] ?? 3600` (seconds); the in-memory store
computes the same values via `isL4 ? 86400 : 3600`. -/
def DEFAULT_EXPIRY : TrustLevel → Nat
  | .L4 => 86400
  | _ => 3600

/-- `AUTO_APPROVE_DENY_LIST`: actions that can never be auto-approved. -/
def AUTO_APPROVE_DENY_LIST : List String :=
  ["COMMIT_SEND_INVOICE", "COMMIT_MARK_CHECKPOINT_COMPLETE",
   "billing_reconciliation", "compliance_audit_pack"]

/-- `AUTO_APPROVE_ALLOW_LIST`: actions that can be auto-approved at L3. -/
def AUTO_APPROVE_ALLOW_LIST : List String :=
  ["COMMIT_POST_ALERT", "COMMIT_PUBLISH_DAILY_BRIEF", "COMMIT_APPLY_CHANGES",
   "daily_ops_brief", "alert_triage"]

/-- `isAutoApproveEligible` of the approval store. -/
def isAutoApproveEligible (trustLevel : TrustLevel) (actionType workflowName : String)
    (reviewerVerdict : Option ReviewerVerdict) : Bool :=
  if trustLevel = .L4 then false
  else if trustLevel ≠ .L3 then false
  else if reviewerVerdict ≠ some .PASS then false
  else if AUTO_APPROVE_DENY_LIST.contains actionType ||
      AUTO_APPROVE_DENY_LIST.contains workflowName then false
  else if AUTO_APPROVE_ALLOW_LIST.contains actionType ||
      AUTO_APPROVE_ALLOW_LIST.contains workflowName then true
  else false

/-- `createRequest`.  `now` is the clock reading and `freshId` the id minted
by `crypto.randomUUID()`.  A thrown exception is `.error` paired with the
unchanged state. -/
def createRequest (s : ApprovalStoreState) (input : CreateApprovalRequestInput)
    (now : Nat) (freshId : String) :
    Except String ApprovalRequest × ApprovalStoreState :=
  if ¬ validCreateRequestInput input then
    (.error "FAIL CLOSED: Invalid approval request input", s)
  else
    let isL4 := input.trustLevel = .L4
    let expirySeconds := DEFAULT_EXPIRY input.trustLevel
    let expiresAt := now + expirySeconds * 1000
    let autoApproveEligible :=
      if isL4 then false
      else isAutoApproveEligible input.trustLevel input.actionType
        input.workflowName input.reviewerVerdict
    let request : ApprovalRequest :=
      { id := freshId
        createdAt := now
        domain := input.domain
        runId := input.runId
        workflowName := input.workflowName
        requestedBy := input.requestedBy
        trustLevel := input.trustLevel
        actionType := input.actionType
        status := .PENDING
        expiresAt := expiresAt
        reviewerVerdict := input.reviewerVerdict
        reviewerNotes := input.reviewerNotes
        autoApproveEligible := autoApproveEligible
        autoApproveReason := none
        contextSandboxId := input.contextSandboxId }
    (.ok request, { s with requests := s.requests ++ [request] })

/-- `getRequest`: `Map.get` modelled as first-match lookup in insertion
order (map keys are unique in every reachable state). -/
def getRequest (s : ApprovalStoreState) (id : String) : Option ApprovalRequest :=
  s.requests.find? (fun r => r.id = id)

/-- Replace the stored request with the given id (in-place mutation of the
`Map` entry). -/
def updateRequest (s : ApprovalStoreState) (id : String)
    (f : ApprovalRequest → ApprovalRequest) : ApprovalStoreState :=
  { s with requests := s.requests.map (fun r => if r.id = id then f r else r) }

/-- Stable descending insertion by `createdAt`, modelling the stable JS sort
`(a, b) => b.createdAt - a.createdAt`. -/
def insertByCreatedDesc (x : ApprovalRequest) :
    List ApprovalRequest → List ApprovalRequest
  | [] => [x]
  | y :: ys =>
      if y.createdAt < x.createdAt then x :: y :: ys
      else y :: insertByCreatedDesc x ys

/-- Sort by creation time descending (stable). -/
def sortByCreatedDesc : List ApprovalRequest → List ApprovalRequest
  | [] => []
  | x :: xs => insertByCreatedDesc x (sortByCreatedDesc xs)

/-- Stable ascending insertion by `createdAt`, modelling the stable JS sort
`(a, b) => a.createdAt - b.createdAt`. -/
def insertByCreatedAsc (x : ApprovalRequest) :
    List ApprovalRequest → List ApprovalRequest
  | [] => [x]
  | y :: ys =>
      if x.createdAt < y.createdAt then x :: y :: ys
      else y :: insertByCreatedAsc x ys

/-- Sort by creation time ascending (stable). -/
def sortByCreatedAsc : List ApprovalRequest → List ApprovalRequest
  | [] => []
  | x :: xs => insertByCreatedAsc x (sortByCreatedAsc xs)

/-- Optional filters of `getPendingRequests`. -/
structure PendingQueryOptions where
  domain : Option String
  workflowName : Option String
  limit : Option Nat
deriving DecidableEq, Repr

/-- `getPendingRequests`: keep records with status PENDING and expiry
strictly after `now`, apply the optional filters, sort by creation time
descending, apply the optional limit. -/
def getPendingRequests (s : ApprovalStoreState) (now : Nat)
    (options : PendingQueryOptions) : List ApprovalRequest :=
  let results := s.requests.filter
    (fun r => r.status = ApprovalStatus.PENDING && now < r.expiresAt)
  let results := match options.domain with
    | some d => results.filter (fun r => r.domain = d)
    | none => results
  let results := match options.workflowName with
    | some w => results.filter (fun r => r.workflowName = w)
    | none => results
  let results := sortByCreatedDesc results
  match options.limit with
  | some n => results.take n
  | none => results

/-- `getRequestsByRunId`: all requests of the run, ascending creation time. -/
def getRequestsByRunId (s : ApprovalStoreState) (runId : String) :
    List ApprovalRequest :=
  sortByCreatedAsc (s.requests.filter (fun r => r.runId = runId))

/-- `expireStaleRequests`: flip PENDING records whose expiry has passed to
EXPIRED, returning the count. -/
def expireStaleRequests (s : ApprovalStoreState) (now : Nat) :
    Nat × ApprovalStoreState :=
  let stale := s.requests.filter
    (fun r => r.status = ApprovalStatus.PENDING && r.expiresAt < now)
  (stale.length,
   { s with requests := s.requests.map fun r =>
      if r.status = ApprovalStatus.PENDING && r.expiresAt < now then
        { r with status := .EXPIRED }
      else r })

/-- `getDecision`: lookup of the decisions map by request id. -/
def getDecision (s : ApprovalStoreState) (approvalRequestId : String) :
    Option ApprovalDecision :=
  s.decisions.find? (fun d => d.approvalRequestId = approvalRequestId)

/-- `createDecision`: validate, check the target exists, is PENDING and
unexpired, reject double decisions, then record the decision and apply the
status transition (the database trigger in the Supabase store). -/
def createDecision (s : ApprovalStoreState) (input : CreateDecisionInput)
    (now : Nat) (freshId : String) :
    Except String ApprovalDecision × ApprovalStoreState :=
  if ¬ validCreateDecisionInput input then
    (.error "FAIL CLOSED: Invalid decision input", s)
  else
    match getRequest s input.approvalRequestId with
    | none =>
        (.error ("Approval request not found: " ++ input.approvalRequestId), s)
    | some request =>
        if request.status ≠ .PENDING then
          (.error ("Cannot decide on request with status: " ++
            request.status.asString), s)
        else if request.expiresAt < now then
          (.error "Approval request has expired", s)
        else if (getDecision s input.approvalRequestId).isSome then
          (.error "A decision has already been made for this request", s)
        else
          let decision : ApprovalDecision :=
            { id := freshId
              createdAt := now
              approvalRequestId := input.approvalRequestId
              decidedBy := input.decidedBy
              decision := input.decision
              notes := input.notes }
          let newStatus : ApprovalStatus :=
            if input.decision = .APPROVE then .APPROVED else .REJECTED
          (.ok decision,
           { requests := (updateRequest s input.approvalRequestId
               (fun r => { r with status := newStatus })).requests
             decisions := s.decisions ++ [decision] })

/-- `autoApprove`: the five security gates, then the `auto_approve_reason`
update followed by `createDecision` with decided-by `system:auto-approve`.
A missing request throws; every other gate failure returns no decision. -/
def autoApprove (s : ApprovalStoreState) (id reason : String) (now : Nat)
    (freshId : String) :
    Except String (Option ApprovalDecision) × ApprovalStoreState :=
  match getRequest s id with
  | none => (.error ("FAIL CLOSED: Approval request not found: " ++ id), s)
  | some request =>
      if request.trustLevel = .L4 then (.ok none, s)
      else if request.status ≠ .PENDING then (.ok none, s)
      else if ¬ request.autoApproveEligible then (.ok none, s)
      else if request.reviewerVerdict ≠ some .PASS then (.ok none, s)
      else if request.expiresAt < now then (.ok none, s)
      else
        let s1 := updateRequest s id
          (fun r => { r with autoApproveReason := some reason })
        match createDecision s1
            { approvalRequestId := id
              decidedBy := "system:auto-approve"
              decision := .APPROVE
              notes := some reason } now freshId with
        | (.ok d, s2) => (.ok (some d), s2)
        | (.error e, s2) => (.error e, s2)

/-! ## Commit tools and the commit boundary (`src/core/commit-tools.ts`) -/

/-- A commit tool definition with its requirements (`CommitToolDefinition`). -/
structure CommitToolDefinition where
  name : String
  description : String
  minTrustLevel : TrustLevel
  actionType : String
  autoApproveEligible : Bool
  risk : Risk
deriving DecidableEq, Repr

/-- `COMMIT_TOOLS[toolName]`: the registry of the five commit tools. -/
def getCommitTool (toolName : String) : Option CommitToolDefinition :=
  if toolName = "asi.commit_apply_changes" then
    some { name := "asi.commit_apply_changes"
           description := "Apply staged changes to production database"
           minTrustLevel := .L3
           actionType := "COMMIT_APPLY_CHANGES"
           autoApproveEligible := true
           risk := .HIGH }
  else if toolName = "asi.commit_publish_daily_brief" then
    some { name := "asi.commit_publish_daily_brief"
           description := "Publish daily operations brief to recipients"
           minTrustLevel := .L3
           actionType := "COMMIT_PUBLISH_DAILY_BRIEF"
           autoApproveEligible := true
           risk := .MEDIUM }
  else if toolName = "asi.commit_post_alert" then
    some { name := "asi.commit_post_alert"
           description := "Post an alert to notification channels"
           minTrustLevel := .L3
           actionType := "COMMIT_POST_ALERT"
           autoApproveEligible := true
           risk := .MEDIUM }
  else if toolName = "asi.commit_mark_checkpoint_complete" then
    some { name := "asi.commit_mark_checkpoint_complete"
           description := "Mark a compliance checkpoint as complete"
           minTrustLevel := .L3
           actionType := "COMMIT_MARK_CHECKPOINT_COMPLETE"
           autoApproveEligible := false
           risk := .HIGH }
  else if toolName = "asi.commit_send_invoice" then
    some { name := "asi.commit_send_invoice"
           description := "Send billing invoice to customer"
           minTrustLevel := .L4
           actionType := "COMMIT_SEND_INVOICE"
           autoApproveEligible := false
           risk := .CRITICAL }
  else none

/-- `isCommitTool`: membership in the commit-tool registry. -/
def isCommitTool (toolName : String) : Bool :=
  (getCommitTool toolName).isSome

/-- A staged change buffered in a sandbox ledger (`StagedChange`); the
opaque payload is not modelled. -/
structure StagedChange where
  id : String
  sandboxId : String
  toolName : String
  entityType : String
deriving DecidableEq, Repr

/-- The sandbox staged-change ledger: the `Map` from sandbox id to its
staged changes. -/
abbrev SandboxLedger := List (String × List StagedChange)

/-- `getStagedChanges`: `this.stagedChanges.get(sandboxId) ?? []`. -/
def getStagedChanges (ledger : SandboxLedger) (sandboxId : String) :
    List StagedChange :=
  match ledger.find? (fun e => e.1 = sandboxId) with
  | some e => e.2
  | none => []

/-- Result of `verifyCommitEligibility` (`CommitEligibilityResult`). -/
structure CommitEligibilityResult where
  eligible : Bool
  reason : Option String
  approvalRequest : Option ApprovalRequest
  stagedChanges : Option (List StagedChange)
deriving DecidableEq, Repr

/-- A denial result of the commit boundary. -/
def commitDeny (reason : String) (approvalRequest : Option ApprovalRequest) :
    CommitEligibilityResult :=
  { eligible := false
    reason := some reason
    approvalRequest := approvalRequest
    stagedChanges := none }

/-- `CommitToolBoundary.verifyCommitEligibility`: the eight fail-closed
gates, in source order.  The store is the in-memory approval store state
(whose reads never throw), the ledger is the sandbox staged-change map and
`now` the clock reading. -/
def verifyCommitEligibility (store : ApprovalStoreState) (ledger : SandboxLedger)
    (now : Nat) (runId toolName : String) : CommitEligibilityResult :=
  -- GATE 1: validate inputs (an empty string is falsy in JS)
  if runId = "" then
    commitDeny "FAIL CLOSED: Invalid or missing runId" none
  else if toolName = "" then
    commitDeny "FAIL CLOSED: Invalid or missing toolName" none
  else
    -- GATE 2: the tool is a registered commit tool
    match getCommitTool toolName with
    | none =>
        commitDeny ("FAIL CLOSED: " ++ (toolName ++
          " is not a registered commit tool. Only commit tools can make irreversible changes.")) none
    | some toolDef =>
      -- GATE 3: an approval request exists for the run and action type
      -- (`requests` is the pure read `getRequestsByRunId store runId`,
      -- referenced twice below)
      if (getRequestsByRunId store runId).isEmpty then
        commitDeny ("FAIL CLOSED: " ++ ("No approval request found for run " ++ runId ++
          ". All commit operations require prior approval.")) none
      else
        match (getRequestsByRunId store runId).find? (fun r =>
            r.actionType = toolDef.actionType || r.actionType = toolName) with
        | none =>
            commitDeny ("FAIL CLOSED: " ++ ("No approval request found for action type " ++
              toolDef.actionType ++ ". Approval must be requested before commit.")) none
        | some approvalRequest =>
          -- GATE 4: trust level meets the tool minimum
          if approvalRequest.trustLevel.idx < toolDef.minTrustLevel.idx then
            commitDeny ("FAIL CLOSED: " ++ ("Trust level below required minimum for " ++
              toolName)) (some approvalRequest)
          -- GATE 5: approval status is APPROVED
          else if approvalRequest.status ≠ .APPROVED then
            commitDeny ("FAIL CLOSED: " ++ ("Approval status is " ++
              approvalRequest.status.asString ++
              ", must be APPROVED. Commit operations require explicit approval."))
              (some approvalRequest)
          -- GATE 6: reviewer verdict is PASS
          else if approvalRequest.reviewerVerdict ≠ some .PASS then
            commitDeny
              "FAIL CLOSED: Reviewer verdict must be PASS. All commits require reviewer approval."
              (some approvalRequest)
          -- GATE 7: the request has not expired
          else if approvalRequest.expiresAt < now then
            commitDeny
              "FAIL CLOSED: Approval request has expired. A new approval must be requested."
              (some approvalRequest)
          -- GATE 8: staged changes exist (apply_changes only, and only
          -- when the request context carries a sandbox id)
          else if toolName = "asi.commit_apply_changes" then
            match approvalRequest.contextSandboxId with
            | some sandboxId =>
                if (getStagedChanges ledger sandboxId).isEmpty then
                  commitDeny
                    "FAIL CLOSED: No staged changes found to commit. Changes must be staged before commit_apply_changes."
                    (some approvalRequest)
                else
                  { eligible := true
                    reason := none
                    approvalRequest := some approvalRequest
                    stagedChanges := some (getStagedChanges ledger sandboxId) }
            | none =>
                { eligible := true
                  reason := none
                  approvalRequest := some approvalRequest
                  stagedChanges := none }
          else
            { eligible := true
              reason := none
              approvalRequest := some approvalRequest
              stagedChanges := none }

/-! ## Trust gate (`src/core/trust-gates.ts`) -/

/-- Trust gate configuration (`TrustGateConfig`), with the constructor
defaults of the `TrustGate` class.  `toolOverrides` is the per-tool
override record, modelled as a lookup function. -/
structure TrustGateConfig where
  domain : String
  defaultTrustLevel : TrustLevel
  requireApprovalAbove : TrustLevel
  sandboxWriteOps : Bool
  toolOverrides : String → Option TrustLevel

/-- A tool definition (`ToolDefinition`); the description and input schema
are not consulted by the gate. -/
structure ToolDefinition where
  name : String
  capability : Capability
  risk : Risk
  executionMode : ExecutionMode
deriving DecidableEq, Repr

/-- A per-stage policy (`StagePolicy`). -/
structure StagePolicy where
  maxTrustLevel : TrustLevel
  allowedCapabilities : List Capability
  sandboxed : Bool
  requiresReviewerApproval : Bool
deriving DecidableEq, Repr

/-- `DEFAULT_STAGE_POLICIES`. -/
def DEFAULT_STAGE_POLICIES : WorkflowStage → StagePolicy
  | .plan =>
      { maxTrustLevel := .L1
        allowedCapabilities := [.READ, .PROPOSE]
        sandboxed := false
        requiresReviewerApproval := false }
  | .execute =>
      { maxTrustLevel := .L2
        allowedCapabilities := [.READ, .PROPOSE, .WRITE]
        sandboxed := true
        requiresReviewerApproval := false }
  | .review =>
      { maxTrustLevel := .L1
        allowedCapabilities := [.READ, .PROPOSE]
        sandboxed := false
        requiresReviewerApproval := false }
  | .commit =>
      { maxTrustLevel := .L4
        allowedCapabilities := [.READ, .PROPOSE, .WRITE, .SIDE_EFFECTS]
        sandboxed := true
        requiresReviewerApproval := true }

/-- A `TrustGate` instance: its config and (merged) stage policies. -/
structure TrustGate where
  config : TrustGateConfig
  stagePolicies : WorkflowStage → StagePolicy

/-- Result of a trust-gate evaluation (`TrustGateResult`). -/
structure TrustGateResult where
  allowed : Bool
  reason : Option String
  requiresApproval : Bool
  approvalId : Option String
  approvalStatus : Option ApprovalStatus
  sandboxed : Bool
  trustLevel : TrustLevel
  isCommitTool : Bool
  requiresReviewerVerdict : Bool
  autoApproveEligible : Bool
deriving DecidableEq, Repr

/-- Evaluation context (`TrustGateContext`); the optional approval store is
passed separately to `evaluateWithApproval`. -/
structure TrustGateContext where
  agentName : String
  runId : String
  workflowName : Option String
  reviewerVerdict : Option ReviewerVerdict
deriving DecidableEq, Repr

/-- `createDenyResult(reason)` with the default reported trust level L4. -/
def createDenyResult (reason : String) : TrustGateResult :=
  { allowed := false
    reason := some reason
    requiresApproval := false
    approvalId := none
    approvalStatus := none
    sandboxed := false
    trustLevel := .L4
    isCommitTool := false
    requiresReviewerVerdict := false
    autoApproveEligible := false }

/-- `getTrustLevelForTool`: explicit override wins, else the risk/capability
chain. -/
def getTrustLevelForTool (config : TrustGateConfig) (tool : ToolDefinition) :
    TrustLevel :=
  match config.toolOverrides tool.name with
  | some level => level
  | none =>
      if tool.risk = .CRITICAL then .L4
      else if tool.risk = .HIGH && tool.capability = .SIDE_EFFECTS then .L3
      else if tool.risk = .HIGH || tool.capability = .WRITE then .L2
      else if tool.capability = .PROPOSE then .L1
      else .L0

/-- `shouldSandbox`. -/
def shouldSandbox (config : TrustGateConfig) (tool : ToolDefinition)
    (stagePolicy : StagePolicy) : Bool :=
  stagePolicy.sandboxed ||
    (config.sandboxWriteOps &&
      (tool.capability = .WRITE || tool.capability = .SIDE_EFFECTS)) ||
    tool.executionMode = .SANDBOX_ONLY

/-- `TrustGate.evaluate`.  The runtime validations that cannot fail in the
typed embedding (stage membership in `VALID_STAGES`, presence of the typed
`capability`/`risk` fields, existence of the merged stage policy) are
omitted; the remaining validations are the non-empty checks on the tool
name, agent name and run id, in source order. -/
def evaluate (gate : TrustGate) (tool : ToolDefinition) (stage : WorkflowStage)
    (context : TrustGateContext) : TrustGateResult :=
  if tool.name = "" then
    createDenyResult "FAIL CLOSED: Tool definition missing required name field"
  else if context.agentName = "" then
    createDenyResult "FAIL CLOSED: Context missing required agentName field"
  else if context.runId = "" then
    createDenyResult "FAIL CLOSED: Context missing required runId field"
  else
    let stagePolicy := gate.stagePolicies stage
    let trustLevel := getTrustLevelForTool gate.config tool
    let commitTool := isCommitTool tool.name
    let commitToolDef := getCommitTool tool.name
    if stagePolicy.maxTrustLevel.idx < trustLevel.idx then
      { allowed := false
        reason := some "Stage does not allow this trust level"
        requiresApproval := false
        approvalId := none
        approvalStatus := none
        sandboxed := false
        trustLevel := trustLevel
        isCommitTool := commitTool
        requiresReviewerVerdict := commitTool
        autoApproveEligible := false }
    else if ¬ stagePolicy.allowedCapabilities.contains tool.capability then
      { allowed := false
        reason := some "Stage does not allow this capability"
        requiresApproval := false
        approvalId := none
        approvalStatus := none
        sandboxed := false
        trustLevel := trustLevel
        isCommitTool := commitTool
        requiresReviewerVerdict := commitTool
        autoApproveEligible := false }
    else
      let sandboxed := shouldSandbox gate.config tool stagePolicy
      let requiresApproval :=
        gate.config.requireApprovalAbove.idx < trustLevel.idx ||
          stagePolicy.requiresReviewerApproval || commitTool
      let requiresReviewerVerdict :=
        commitTool || stagePolicy.requiresReviewerApproval
      let autoApproveEligible :=
        trustLevel = .L3 &&
          (match commitToolDef with
           | some d => d.autoApproveEligible
           | none => false)
      if trustLevel = .L4 then
        { allowed := false
          reason := some ("Human approval required for L4 operations (tool: " ++
            tool.name ++ ")")
          requiresApproval := true
          approvalId := none
          approvalStatus := none
          sandboxed := sandboxed
          trustLevel := trustLevel
          isCommitTool := commitTool
          requiresReviewerVerdict := requiresReviewerVerdict
          autoApproveEligible := false }
      else if commitTool && stage = .commit then
        { allowed := false
          reason := some "Commit tool requires approval check"
          requiresApproval := true
          approvalId := none
          approvalStatus := none
          sandboxed := sandboxed
          trustLevel := trustLevel
          isCommitTool := true
          requiresReviewerVerdict := true
          autoApproveEligible := autoApproveEligible }
      else
        { allowed := true
          reason := none
          requiresApproval := requiresApproval
          approvalId := none
          approvalStatus := none
          sandboxed := sandboxed
          trustLevel := trustLevel
          isCommitTool := commitTool
          requiresReviewerVerdict := requiresReviewerVerdict
          autoApproveEligible := autoApproveEligible }

/-- `tool.name.split(".").pop()!`: the last dot-separated component. -/
def lastNameComponent (name : String) : String :=
  (name.splitOn ".").getLastD ""

/-- Prefix test on character lists. -/
def charsPrefix : List Char → List Char → Bool
  | [], _ => true
  | _ :: _, [] => false
  | a :: as, b :: bs => a == b && charsPrefix as bs

/-- Infix (contiguous-substring) test on character lists. -/
def charsInfix (pattern : List Char) : List Char → Bool
  | [] => charsPrefix pattern []
  | c :: rest => charsPrefix pattern (c :: rest) || charsInfix pattern rest

/-- JS `s.includes(pattern)`: case-sensitive substring containment. -/
def jsIncludes (s pattern : String) : Bool :=
  charsInfix pattern.toList s.toList

/-- The request matcher of `evaluateWithApproval`:
`r.actionType === tool.name || r.actionType.includes(tool.name.split(".").pop()!)`. -/
def matchesToolRequest (toolName : String) (r : ApprovalRequest) : Bool :=
  r.actionType = toolName ||
    jsIncludes r.actionType (lastNameComponent toolName)

/-- `TrustGate.evaluateWithApproval`.  The store argument is `none` when no
approval store is configured.  The in-memory store reads never throw, so the
fail-closed catch around `getRequestsByRunId` is not reachable in the
embedding. -/
def evaluateWithApproval (gate : TrustGate) (tool : ToolDefinition)
    (stage : WorkflowStage) (context : TrustGateContext)
    (store : Option ApprovalStoreState) : TrustGateResult :=
  let basicResult := evaluate gate tool stage context
  if ¬ basicResult.allowed && ¬ basicResult.requiresApproval then basicResult
  else if ¬ basicResult.requiresApproval then basicResult
  else
    match store with
    | none => basicResult
    | some st =>
      let requests := getRequestsByRunId st context.runId
      match requests.find? (matchesToolRequest tool.name) with
      | none =>
          { basicResult with
              allowed := false
              reason := some "Approval request required" }
      | some relevantRequest =>
          if relevantRequest.status = .APPROVED then
            if basicResult.requiresReviewerVerdict &&
                relevantRequest.reviewerVerdict ≠ some .PASS then
              { basicResult with
                  allowed := false
                  reason := some "Reviewer verdict is not PASS"
                  approvalId := some relevantRequest.id
                  approvalStatus := some relevantRequest.status }
            else
              { basicResult with
                  allowed := true
                  approvalId := some relevantRequest.id
                  approvalStatus := some .APPROVED }
          else if relevantRequest.status = .PENDING then
            if basicResult.autoApproveEligible &&
                context.reviewerVerdict = some .PASS &&
                relevantRequest.autoApproveEligible then
              { basicResult with
                  allowed := false
                  reason := some "Pending approval (auto-approve eligible)"
                  approvalId := some relevantRequest.id
                  approvalStatus := some .PENDING
                  autoApproveEligible := true }
            else
              { basicResult with
                  allowed := false
                  reason := some "Awaiting human approval"
                  approvalId := some relevantRequest.id
                  approvalStatus := some .PENDING }
          else
            { basicResult with
                allowed := false
                reason := some ("Approval " ++ relevantRequest.status.asLowerString)
                approvalId := some relevantRequest.id
                approvalStatus := some relevantRequest.status }

/-! ## Sandbox fail-closed paths (`src/core/sandbox.ts`) -/

/-- Closed enumeration of sandbox failure reasons (`SandboxFailureReason`). -/
inductive SandboxFailureReason
  | DOCKER_NOT_AVAILABLE
  | DOCKER_NOT_RUNNING
  | IMAGE_PULL_FAILED
  | BLOCKED_ENV_VAR_REQUESTED
  | INVALID_INPUT
  | NETWORK_ALLOWLIST_INVALID
  | ARTIFACTS_DIR_CREATION_FAILED
  | EXECUTION_TIMEOUT
  | CONTAINER_STARTUP_FAILED
  | UNKNOWN_ERROR
deriving DecidableEq, Repr

/-- Result of a sandbox execution (`SandboxExecutionResult`); artifact
paths, durations and stdio samples are not modelled. -/
structure SandboxExecutionResult where
  success : Bool
  error : Option String
  sandboxId : String
  timedOut : Bool
  exitCode : Option Int
  failureReason : Option SandboxFailureReason
  deniedByPolicy : Bool
deriving DecidableEq, Repr

/-- The fail-closed fields of the sandbox configuration (`SandboxConfig`);
the container/resource settings do not influence the verified paths. -/
structure SandboxPolicyConfig where
  timeoutSeconds : Nat
  failClosedOnDockerUnavailable : Bool
deriving DecidableEq, Repr

/-- The state of the external isolation facility, as observed by the
sandbox probes: whether `docker version` succeeds, the diagnosis string
produced by `diagnoseDockerUnavailability` when it does not, and the
outcome of a `docker run` (an external process) when it does. -/
structure DockerEnv where
  dockerAvailable : Bool
  diagnosis : String
  runSuccess : Bool
  runTimedOut : Bool
  runExitCode : Int
  runError : Option String
deriving DecidableEq, Repr

/-- Outcome of one isolation attempt, instrumented with whether the
supplied handler function was invoked. -/
structure IsolationOutcome where
  result : SandboxExecutionResult
  handlerInvoked : Bool
deriving DecidableEq, Repr

/-- `executeInDocker`, abstracted over the external `docker run` outcome:
the handler itself is never invoked in-process on this path. -/
def executeInDocker (env : DockerEnv) (sandboxId : String) :
    SandboxExecutionResult :=
  { success := env.runSuccess
    error := env.runError
    sandboxId := sandboxId
    timedOut := env.runTimedOut
    exitCode := some env.runExitCode
    failureReason := none
    deniedByPolicy := false }

/-- Abstract outcome of running the handler directly (the dangerous
fallback): either a value or a thrown error, with a timeout marker. -/
inductive HandlerOutcome
  | ok
  | threw (message : String)
  | timedOut
deriving DecidableEq, Repr

/-- `executeDirectly`: the only path that invokes the handler in-process. -/
def executeDirectly (outcome : HandlerOutcome) (sandboxId : String) :
    SandboxExecutionResult :=
  match outcome with
  | .ok =>
      { success := true
        error := none
        sandboxId := sandboxId
        timedOut := false
        exitCode := some 0
        failureReason := none
        deniedByPolicy := false }
  | .threw message =>
      { success := false
        error := some message
        sandboxId := sandboxId
        timedOut := false
        exitCode := some 1
        failureReason := none
        deniedByPolicy := false }
  | .timedOut =>
      { success := false
        error := some "Execution timeout"
        sandboxId := sandboxId
        timedOut := true
        exitCode := some 124
        failureReason := some .EXECUTION_TIMEOUT
        deniedByPolicy := false }

/-- `DockerSandbox.executeWithIsolation`: Docker when available; otherwise
the fail-closed denial when `failClosedOnDockerUnavailable` is set, and the
dangerous direct fallback otherwise.  The instrumentation records that the
handler runs in-process only on the fallback path. -/
def executeWithIsolation (config : SandboxPolicyConfig) (env : DockerEnv)
    (sandboxId : String) (handlerOutcome : HandlerOutcome) : IsolationOutcome :=
  if env.dockerAvailable then
    { result := executeInDocker env sandboxId
      handlerInvoked := false }
  else if config.failClosedOnDockerUnavailable then
    { result :=
        { success := false
          error := some ("FAIL CLOSED: Docker unavailable - " ++ env.diagnosis ++
            ". Sandboxed execution is required for L2+ operations.")
          sandboxId := sandboxId
          timedOut := false
          exitCode := none
          failureReason :=
            some (if env.diagnosis = "Docker daemon is not running" then
              .DOCKER_NOT_RUNNING else .DOCKER_NOT_AVAILABLE)
          deniedByPolicy := true }
      handlerInvoked := false }
  else
    { result := executeDirectly handlerOutcome sandboxId
      handlerInvoked := true }

/-- `FailClosedSandbox.execute`: unconditionally denies, never invokes the
handler. -/
def failClosedExecute (reason : String) (sandboxId : String) : IsolationOutcome :=
  { result :=
      { success := false
        error := some ("FAIL CLOSED: " ++ reason)
        sandboxId := sandboxId
        timedOut := false
        exitCode := none
        failureReason := some .DOCKER_NOT_AVAILABLE
        deniedByPolicy := true }
    handlerInvoked := false }

/-! ## Orchestrator (`src/core/orchestrator.ts`, `AgentOrchestrator.runWorkflow`)

The LLM-driven inner loop of `runAgent` is the external collaborator: it is
abstracted as a function `behavior` from the stage (and the reviewer verdict
threaded into the stage's tool calls) to the `AgentRunResult` the agent run
produces.  The stage loop itself — validation, agent resolution, reviewer
verdict capture, commit blocking, approval creation and auto-approval — is
embedded from the source.  Two ghost fields instrument the loop:
`stagesEntered` records the stages whose agent was actually run, and
`commitRequestsCreated` the approval requests created by the commit path. -/

/-- Agent role (`AgentRole` in schemas). -/
inductive AgentRole
  | planner | worker | reviewer
deriving DecidableEq, Repr

/-- An agent definition (`AgentDefinition`); the system prompt and allowed
tool names feed only the abstracted LLM loop. -/
structure AgentDefinition where
  name : String
  role : AgentRole
  maxTurns : Nat
deriving DecidableEq, Repr

/-- A workflow definition (`WorkflowDefinition`). -/
structure WorkflowDefinition where
  name : String
  domain : String
  agents : List AgentDefinition
  stages : List WorkflowStage
deriving DecidableEq, Repr

/-- Terminal status of a workflow run or of a single agent run. -/
inductive RunStatus
  | completed | failed | requires_approval
deriving DecidableEq, Repr

/-- The status string of a run status. -/
def RunStatus.asString : RunStatus → String
  | .completed => "completed"
  | .failed => "failed"
  | .requires_approval => "requires_approval"

/-- The name string of a workflow stage. -/
def WorkflowStage.asString : WorkflowStage → String
  | .plan => "plan"
  | .execute => "execute"
  | .review => "review"
  | .commit => "commit"

/-- The fields of a recorded tool call (`{ tool, result }`) that the stage
loop reads: the tool name and the sandbox id of its result. -/
structure ToolCallSummary where
  tool : String
  sandboxId : Option String
deriving DecidableEq, Repr

/-- Result of running one agent (`AgentRunResult`). -/
structure AgentRunResult where
  output : Option String
  toolCalls : List ToolCallSummary
  status : RunStatus
  error : Option String
  approvalRequestId : Option String
  reviewerVerdict : Option ReviewerVerdict
deriving DecidableEq, Repr

/-- An audit event as handed to `logger.log` (`AgentActionEventInput`),
restricted to the fields the orchestrator populates. -/
structure AuditEvent where
  domain : String
  workflowName : String
  agentName : String
  runId : String
  trustLevel : TrustLevel
  stage : WorkflowStage
  intent : String
  warnings : List String
  errors : List String
  summary : Option String
deriving DecidableEq, Repr

/-- The role resolved for each stage by `getAgentForStage`. -/
def roleForStage : WorkflowStage → AgentRole
  | .plan => .planner
  | .execute => .worker
  | .review => .reviewer
  | .commit => .worker

/-- `getAgentForStage`: first agent whose role matches the stage. -/
def getAgentForStage (agents : List AgentDefinition) (stage : WorkflowStage) :
    Option AgentDefinition :=
  agents.find? (fun a => a.role = roleForStage stage)

/-- Options of a workflow run (`WorkflowRunOptions`); `runId` is the
resolved run id (`options.runId ?? crypto.randomUUID()`). -/
structure WorkflowRunOptions where
  input : String
  runId : String
  reviewerVerdict : Option ReviewerVerdict
  reviewerNotes : Option String
deriving DecidableEq, Repr

/-- The environment of one `runWorkflow` call: the workflow, the options,
the abstracted agent behaviour, whether an approval store is configured,
the clock reading, and the fresh-id supply for `crypto.randomUUID()`. -/
structure OrchestratorEnv where
  workflow : WorkflowDefinition
  options : WorkflowRunOptions
  behavior : WorkflowStage → Option ReviewerVerdict → AgentRunResult
  hasApprovalStore : Bool
  now : Nat
  freshId : Nat → String

/-- Mutable state of the stage loop, plus the two ghost fields. -/
structure OrchState where
  store : ApprovalStoreState
  log : List AuditEvent
  context : String
  finalResult : Option String
  finalStatus : RunStatus
  finalError : Option String
  approvalRequestId : Option String
  reviewerVerdict : Option ReviewerVerdict
  idCounter : Nat
  stagesEntered : List WorkflowStage
  commitRequestsCreated : List String
deriving DecidableEq, Repr

/-- Event constructor covering the fields the orchestrator fills. -/
def mkEvent (domain workflowName agentName runId : String)
    (trustLevel : TrustLevel) (stage : WorkflowStage) (intent : String)
    (warnings errors : List String) (summary : Option String) : AuditEvent :=
  { domain := domain
    workflowName := workflowName
    agentName := agentName
    runId := runId
    trustLevel := trustLevel
    stage := stage
    intent := intent
    warnings := warnings
    errors := errors
    summary := summary }

/-- The slice of the created request the orchestrator keeps
(`{ id, autoApproveEligible, actionType }`). -/
structure CreatedRequestInfo where
  id : String
  autoApproveEligible : Bool
  actionType : String
deriving DecidableEq, Repr

/-- `AgentOrchestrator.createApprovalRequest`: find the first commit tool
among the stage's tool calls, build a `CreateApprovalRequestInput` from its
definition and call the store's `createRequest`; every thrown error is
caught and turned into `none`. -/
def orchCreateApprovalRequest (env : OrchestratorEnv) (agentName : String)
    (stageResult : AgentRunResult) (reviewerVerdict : Option ReviewerVerdict)
    (store : ApprovalStoreState) (idCounter : Nat) :
    Option CreatedRequestInfo × ApprovalStoreState × Nat :=
  if ¬ env.hasApprovalStore then (none, store, idCounter)
  else
    match stageResult.toolCalls.find? (fun tc => isCommitTool tc.tool) with
    | none => (none, store, idCounter)
    | some commitToolCall =>
      match getCommitTool commitToolCall.tool with
      | none => (none, store, idCounter)
      | some commitToolDef =>
        let input : CreateApprovalRequestInput :=
          { domain := env.workflow.domain
            runId := env.options.runId
            workflowName := env.workflow.name
            requestedBy := agentName
            trustLevel := commitToolDef.minTrustLevel
            actionType := commitToolDef.actionType
            reviewerVerdict := reviewerVerdict
            reviewerNotes := env.options.reviewerNotes
            contextSandboxId := commitToolCall.sandboxId }
        match createRequest store input env.now (env.freshId idCounter) with
        | (.ok request, store') =>
            (some { id := request.id
                    autoApproveEligible := request.autoApproveEligible
                    actionType := commitToolDef.actionType },
             store', idCounter + 1)
        | (.error _, store') => (none, store', idCounter + 1)

/-- One step of the stage loop: continue to the next stage, leave the loop
(`break`), or propagate a thrown exception to the outer catch. -/
inductive StageStep
  | cont (st : OrchState)
  | halt (st : OrchState)
  | thrown (st : OrchState) (message : String)
deriving Repr

/-- The `stage === "commit"` / requires-approval / failed tail of the loop
body, after the reviewer-verdict capture. -/
def stageRest (env : OrchestratorEnv) (stage : WorkflowStage)
    (agent : AgentDefinition) (st : OrchState) (stageResult : AgentRunResult) :
    StageStep :=
  let wf := env.workflow
  let pausedEvent := mkEvent wf.domain wf.name agent.name env.options.runId
    .L3 stage "Workflow paused: requires human approval"
    ["Approval required to continue"] [] none
  if stageResult.status = .requires_approval then
    let st := { st with
      finalStatus := .requires_approval
      finalResult := stageResult.output
      approvalRequestId := stageResult.approvalRequestId }
    if env.hasApprovalStore ∧ st.approvalRequestId = none ∧ stage = .commit then
      match orchCreateApprovalRequest env agent.name stageResult
          st.reviewerVerdict st.store st.idCounter with
      | (some request, store', counter') =>
        let st := { st with
          approvalRequestId := some request.id
          store := store'
          idCounter := counter'
          commitRequestsCreated := st.commitRequestsCreated ++ [request.id] }
        if request.autoApproveEligible ∧ st.reviewerVerdict = some .PASS then
          match autoApprove st.store request.id
              "Auto-approved: reviewer PASS + eligible action type"
              env.now (env.freshId st.idCounter) with
          | (.ok (some _), store2) =>
              .cont { st with
                finalStatus := .completed
                approvalRequestId := some request.id
                store := store2
                idCounter := st.idCounter + 1
                log := st.log ++ [mkEvent wf.domain wf.name "orchestrator"
                  env.options.runId .L3 stage "Auto-approved commit operation"
                  [] [] (some ("Auto-approved: " ++ request.actionType))] }
          | (.ok none, store2) =>
              .halt { st with
                store := store2
                idCounter := st.idCounter + 1
                log := st.log ++ [pausedEvent] }
          | (.error message, store2) =>
              .thrown { st with store := store2, idCounter := st.idCounter + 1 }
                message
        else
          .halt { st with log := st.log ++ [pausedEvent] }
      | (none, store', counter') =>
          .halt { st with
            store := store'
            idCounter := counter'
            log := st.log ++ [pausedEvent] }
    else
      .halt { st with log := st.log ++ [pausedEvent] }
  else if stageResult.status = .failed then
    .halt { st with
      finalStatus := .failed
      finalError := stageResult.error
      finalResult := none
      log := st.log ++ [mkEvent wf.domain wf.name agent.name env.options.runId
        .L0 stage ("Stage " ++ stage.asString ++ " failed")
        [] [stageResult.error.getD "Unknown error"] none] }
  else
    -- pass the stage output to the next stage
    .cont { st with
      context := stageResult.output.getD "null"
      finalResult := stageResult.output }

/-- One full iteration of the stage loop of `runWorkflow`. -/
def stageBody (env : OrchestratorEnv) (stage : WorkflowStage) (st : OrchState) :
    StageStep :=
  let wf := env.workflow
  match getAgentForStage wf.agents stage with
  | none =>
    let err := "FAIL CLOSED: No agent defined for required stage " ++ stage.asString
    .halt { st with
      finalStatus := .failed
      finalError := some err
      log := st.log ++ [mkEvent wf.domain wf.name "orchestrator" env.options.runId
        .L0 stage ("FAIL CLOSED: Missing agent for stage " ++ stage.asString)
        [] [err] none] }
  | some agent =>
    if stage = .commit ∧ st.reviewerVerdict = none then
      let err := "FAIL CLOSED: Commit stage requires reviewer verdict but none was provided"
      .halt { st with
        finalStatus := .failed
        finalError := some err
        log := st.log ++ [mkEvent wf.domain wf.name "orchestrator" env.options.runId
          .L0 .commit "FAIL CLOSED: Missing reviewer verdict for commit"
          [] [err] none] }
    else
      let stageResult := env.behavior stage st.reviewerVerdict
      let st := { st with stagesEntered := st.stagesEntered ++ [stage] }
      -- capture the reviewer verdict from the review stage
      let st1 :=
        if stage = .review then
          match stageResult.reviewerVerdict with
          | some v => { st with reviewerVerdict := some v }
          | none => st
        else st
      if stage = .review ∧ stageResult.reviewerVerdict = some .FAIL then
        -- CRITICAL: a reviewer FAIL blocks the commit stage
        .halt { st1 with
          finalStatus := .failed
          finalResult := stageResult.output
          finalError := some "Reviewer verdict: FAIL - commit stage blocked"
          log := st1.log ++ [mkEvent wf.domain wf.name "orchestrator"
            env.options.runId .L0 .review "Workflow blocked: reviewer verdict FAIL"
            ["Commit stage blocked due to reviewer FAIL verdict"] []
            (stageResult.output.map (fun s => s.take 500))] }
      else
        stageRest env stage agent st1 stageResult

/-- The stage loop: run `stageBody` over the stages until a `break` or a
throw. -/
def runStages (env : OrchestratorEnv) :
    List WorkflowStage → OrchState → OrchState × Option String
  | [], st => (st, none)
  | stage :: rest, st =>
    match stageBody env stage st with
    | .halt st1 => (st1, none)
    | .thrown st1 message => (st1, some message)
    | .cont st1 => runStages env rest st1

/-- `validateWorkflowDefinition`: required fields, in source order (`domain`
is typed and always present in the embedding). -/
def validateWorkflowDefinition (wf : WorkflowDefinition) : Option String :=
  if wf.name = "" then some "Workflow definition missing required name field"
  else if wf.agents.isEmpty then
    some "Workflow definition missing or empty agents array"
  else if wf.stages.isEmpty then
    some "Workflow definition missing or empty stages array"
  else none

/-- JS `Array.prototype.indexOf`: first index, or `-1` when absent. -/
def jsIndexOf (stages : List WorkflowStage) (s : WorkflowStage) : Int :=
  match stages with
  | [] => -1
  | a :: rest =>
      if a = s then 0
      else if jsIndexOf rest s = -1 then -1 else jsIndexOf rest s + 1

/-- Return value of a workflow run (`WorkflowResult`).  The `events` array
of the source is allocated but never appended to, so it is always empty;
emitted audit events travel through the logger instead. -/
structure WorkflowResult where
  runId : String
  result : Option String
  events : List AuditEvent
  status : RunStatus
  error : Option String
  approvalRequestId : Option String
  reviewerVerdict : Option ReviewerVerdict
deriving DecidableEq, Repr

/-- Everything observable about one `runWorkflow` call: its return value,
the events handed to the logger, the final approval-store state, and the
two ghost instrumentation lists. -/
structure OrchestrationOutcome where
  result : WorkflowResult
  log : List AuditEvent
  store : ApprovalStoreState
  stagesEntered : List WorkflowStage
  commitRequestsCreated : List String
deriving DecidableEq, Repr

/-- A failed result produced before the stage loop starts. -/
def earlyFailure (env : OrchestratorEnv) (initialStore : ApprovalStoreState)
    (error : String) : OrchestrationOutcome :=
  { result :=
      { runId := env.options.runId
        result := none
        events := []
        status := .failed
        error := some error
        approvalRequestId := none
        reviewerVerdict := none }
    log := []
    store := initialStore
    stagesEntered := []
    commitRequestsCreated := [] }

/-- `AgentOrchestrator.runWorkflow`: validate the workflow, check the
commit/review ordering, log the start event, run the stage loop, and log
the completion (or outer-catch failure) event.  All stages are recognized
in the typed embedding, so the `VALID_ORCHESTRATOR_STAGES` scan never
fails. -/
def runWorkflow (env : OrchestratorEnv) (initialStore : ApprovalStoreState) :
    OrchestrationOutcome :=
  let wf := env.workflow
  let runId := env.options.runId
  match validateWorkflowDefinition wf with
  | some msg => earlyFailure env initialStore ("FAIL CLOSED: " ++ msg)
  | none =>
    let commitIndex := jsIndexOf wf.stages .commit
    let reviewIndex := jsIndexOf wf.stages .review
    if commitIndex ≠ -1 ∧ (reviewIndex = -1 ∨ commitIndex < reviewIndex) then
      earlyFailure env initialStore
        "FAIL CLOSED: Commit stage requires review stage to precede it"
    else
      let startEvent := mkEvent wf.domain wf.name "orchestrator" runId .L0 .plan
        ("Starting workflow: " ++ wf.name) [] [] none
      let st0 : OrchState :=
        { store := initialStore
          log := [startEvent]
          context := env.options.input
          finalResult := none
          finalStatus := .completed
          finalError := none
          approvalRequestId := none
          reviewerVerdict := env.options.reviewerVerdict
          idCounter := 0
          stagesEntered := []
          commitRequestsCreated := [] }
      match runStages env wf.stages st0 with
      | (st, none) =>
        let completionEvent := mkEvent wf.domain wf.name "orchestrator" runId
          .L0 .commit ("Workflow completed with status: " ++ st.finalStatus.asString)
          [] [] (some ((st.finalResult.getD "null").take 500))
        { result :=
            { runId := runId
              result := st.finalResult
              events := []
              status := st.finalStatus
              error := st.finalError
              approvalRequestId := st.approvalRequestId
              reviewerVerdict := st.reviewerVerdict }
          log := st.log ++ [completionEvent]
          store := st.store
          stagesEntered := st.stagesEntered
          commitRequestsCreated := st.commitRequestsCreated }
      | (st, some msg) =>
        let failureEvent := mkEvent wf.domain wf.name "orchestrator" runId
          .L0 .commit "Workflow failed with error" [] [msg] none
        { result :=
            { runId := runId
              result := st.finalResult
              events := []
              status := .failed
              error := some msg
              approvalRequestId := st.approvalRequestId
              reviewerVerdict := st.reviewerVerdict }
          log := st.log ++ [failureEvent]
          store := st.store
          stagesEntered := st.stagesEntered
          commitRequestsCreated := st.commitRequestsCreated }

/-! ## Specification-side definitions

These definitions follow the wording of the specification (not the code);
they exist to be compared with the embedded code. -/

/-- The auto-approve eligibility chain exactly as the specification states
it: L4 is unconditionally ineligible, then reviewer verdict, then the deny
set, then the allow set — with no further gate on the trust level. -/
def specAutoApproveChain (trustLevel : TrustLevel) (actionType workflowName : String)
    (reviewerVerdict : Option ReviewerVerdict) : Bool :=
  if trustLevel = .L4 then false
  else if reviewerVerdict ≠ some .PASS then false
  else if AUTO_APPROVE_DENY_LIST.contains actionType ||
      AUTO_APPROVE_DENY_LIST.contains workflowName then false
  else if AUTO_APPROVE_ALLOW_LIST.contains actionType ||
      AUTO_APPROVE_ALLOW_LIST.contains workflowName then true
  else false

/-- The auto-approve eligibility chain amended with the one gate the code
adds: a trust level other than L3 is ineligible. -/
def amendedAutoApproveChain (trustLevel : TrustLevel) (actionType workflowName : String)
    (reviewerVerdict : Option ReviewerVerdict) : Bool :=
  if trustLevel = .L4 then false
  else if trustLevel ≠ .L3 then false
  else specAutoApproveChain trustLevel actionType workflowName reviewerVerdict

/-- The tool trust-level derivation chain as the specification states it. -/
def specToolTrustLevel (override : Option TrustLevel) (risk : Risk)
    (capability : Capability) : TrustLevel :=
  match override with
  | some level => level
  | none =>
      if risk = .CRITICAL then .L4
      else if risk = .HIGH ∧ capability = .SIDE_EFFECTS then .L3
      else if risk = .HIGH ∨ capability = .WRITE then .L2
      else if capability = .PROPOSE then .L1
      else .L0

/-! ## Concrete instances used by witnesses and counterexamples -/

/-- The empty approval store. -/
def emptyStore : ApprovalStoreState := { requests := [], decisions := [] }

/-- A uuid-shaped run id. -/
def uuidRun : String := "00000000-0000-0000-0000-000000000002"

/-- A uuid-shaped request id. -/
def uuidReq : String := "00000000-0000-0000-0000-000000000001"

/-- A valid L4 `createRequest` input (`asi.commit_send_invoice` action). -/
def l4Input : CreateApprovalRequestInput :=
  { domain := "asi"
    runId := uuidRun
    workflowName := "billing_workflow"
    requestedBy := "billing_agent"
    trustLevel := .L4
    actionType := "COMMIT_SEND_INVOICE"
    reviewerVerdict := some .PASS
    reviewerNotes := none
    contextSandboxId := none }

/-- A pending L4 request as stored. -/
def l4StoredRequest : ApprovalRequest :=
  { id := uuidReq
    createdAt := 0
    domain := "asi"
    runId := uuidRun
    workflowName := "billing_workflow"
    requestedBy := "billing_agent"
    trustLevel := .L4
    actionType := "COMMIT_SEND_INVOICE"
    status := .PENDING
    expiresAt := 86400000
    reviewerVerdict := some .PASS
    reviewerNotes := none
    autoApproveEligible := false
    autoApproveReason := none
    contextSandboxId := none }

/-- A store holding only the pending L4 request. -/
def l4Store : ApprovalStoreState := { requests := [l4StoredRequest], decisions := [] }

/-- The request `createRequest` builds from `l4Input` at time 0 with fresh
id `uuidReq`. -/
def l4CreatedRequest : ApprovalRequest :=
  { id := uuidReq
    createdAt := 0
    domain := "asi"
    runId := uuidRun
    workflowName := "billing_workflow"
    requestedBy := "billing_agent"
    trustLevel := .L4
    actionType := "COMMIT_SEND_INVOICE"
    status := .PENDING
    expiresAt := 86400000
    reviewerVerdict := some .PASS
    reviewerNotes := none
    autoApproveEligible := false
    autoApproveReason := none
    contextSandboxId := none }

/-- A valid L2 `createRequest` input with reviewer PASS and an allow-set
action type: the specification chain grants eligibility, the code denies
it. -/
def l2Input : CreateApprovalRequestInput :=
  { domain := "asi"
    runId := uuidRun
    workflowName := "ops_workflow"
    requestedBy := "ops_agent"
    trustLevel := .L2
    actionType := "COMMIT_POST_ALERT"
    reviewerVerdict := some .PASS
    reviewerNotes := none
    contextSandboxId := none }

/-- The request `createRequest` builds from `l2Input` at time 0. -/
def l2CreatedRequest : ApprovalRequest :=
  { id := uuidReq
    createdAt := 0
    domain := "asi"
    runId := uuidRun
    workflowName := "ops_workflow"
    requestedBy := "ops_agent"
    trustLevel := .L2
    actionType := "COMMIT_POST_ALERT"
    status := .PENDING
    expiresAt := 3600000
    reviewerVerdict := some .PASS
    reviewerNotes := none
    autoApproveEligible := false
    autoApproveReason := none
    contextSandboxId := none }

/-- A valid L3 `createRequest` input with reviewer PASS and an allow-set
action type (eligible for auto-approval). -/
def l3Input : CreateApprovalRequestInput :=
  { domain := "asi"
    runId := uuidRun
    workflowName := "daily_ops_brief"
    requestedBy := "ops_agent"
    trustLevel := .L3
    actionType := "COMMIT_POST_ALERT"
    reviewerVerdict := some .PASS
    reviewerNotes := none
    contextSandboxId := none }

/-- An approved, unexpired L3 request eligible for auto-approval. -/
def l3EligibleRequest : ApprovalRequest :=
  { id := uuidReq
    createdAt := 0
    domain := "asi"
    runId := uuidRun
    workflowName := "daily_ops_brief"
    requestedBy := "ops_agent"
    trustLevel := .L3
    actionType := "COMMIT_POST_ALERT"
    status := .PENDING
    expiresAt := 3600000
    reviewerVerdict := some .PASS
    reviewerNotes := none
    autoApproveEligible := true
    autoApproveReason := none
    contextSandboxId := none }

/-- A store holding only the pending eligible L3 request. -/
def l3Store : ApprovalStoreState := { requests := [l3EligibleRequest], decisions := [] }

/-- An approved, unexpired L3 apply-changes request whose context carries
no sandbox id. -/
def applyNoSandboxRequest : ApprovalRequest :=
  { id := uuidReq
    createdAt := 0
    domain := "asi"
    runId := uuidRun
    workflowName := "ops_workflow"
    requestedBy := "ops_agent"
    trustLevel := .L3
    actionType := "COMMIT_APPLY_CHANGES"
    status := .APPROVED
    expiresAt := 100000
    reviewerVerdict := some .PASS
    reviewerNotes := none
    autoApproveEligible := true
    autoApproveReason := none
    contextSandboxId := none }

/-- A store holding only `applyNoSandboxRequest`. -/
def applyNoSandboxStore : ApprovalStoreState :=
  { requests := [applyNoSandboxRequest], decisions := [] }

/-- An approved, unexpired L3 post-alert request. -/
def approvedAlertRequest : ApprovalRequest :=
  { id := uuidReq
    createdAt := 0
    domain := "asi"
    runId := uuidRun
    workflowName := "alert_triage"
    requestedBy := "ops_agent"
    trustLevel := .L3
    actionType := "COMMIT_POST_ALERT"
    status := .APPROVED
    expiresAt := 100000
    reviewerVerdict := some .PASS
    reviewerNotes := none
    autoApproveEligible := true
    autoApproveReason := none
    contextSandboxId := none }

/-- A store holding only `approvedAlertRequest`. -/
def approvedAlertStore : ApprovalStoreState :=
  { requests := [approvedAlertRequest], decisions := [] }

/-- A sandbox policy config with the fail-closed flag set. -/
def failClosedConfig : SandboxPolicyConfig :=
  { timeoutSeconds := 300, failClosedOnDockerUnavailable := true }

/-- A Docker environment in which the daemon is down. -/
def daemonDownEnv : DockerEnv :=
  { dockerAvailable := false
    diagnosis := "Docker daemon is not running"
    runSuccess := false
    runTimedOut := false
    runExitCode := 1
    runError := none }

/-- The decision recorded for the pending eligible L3 request by a human
approver. -/
def opsLeadDecision : ApprovalDecision :=
  { id := "d1"
    createdAt := 5
    approvalRequestId := uuidReq
    decidedBy := "ops-lead"
    decision := .APPROVE
    notes := none }

/-- The L3 request after the APPROVE transition. -/
def decidedL3Request : ApprovalRequest :=
  { l3EligibleRequest with status := .APPROVED }

/-- The store after the APPROVE decision on the L3 request. -/
def decidedL3Store : ApprovalStoreState :=
  { requests := [decidedL3Request], decisions := [opsLeadDecision] }

/-- A decision input targeting the L3 request. -/
def opsLeadInput : CreateDecisionInput :=
  { approvalRequestId := uuidReq
    decidedBy := "ops-lead"
    decision := .APPROVE
    notes := none }

/-- A gate configuration with one explicit override. -/
def demoOverridesConfig : TrustGateConfig :=
  { domain := "asi"
    defaultTrustLevel := .L1
    requireApprovalAbove := .L2
    sandboxWriteOps := true
    toolOverrides := fun name =>
      if name = "asi.commit_send_invoice" then some .L4 else none }

/-- A gate configuration with no overrides. -/
def plainGateConfig : TrustGateConfig :=
  { domain := "asi"
    defaultTrustLevel := .L1
    requireApprovalAbove := .L2
    sandboxWriteOps := true
    toolOverrides := fun _ => none }

/-- A trust gate with the default stage policies and no overrides. -/
def plainGate : TrustGate :=
  { config := plainGateConfig
    stagePolicies := DEFAULT_STAGE_POLICIES }

/-- The post-alert commit tool definition (HIGH risk, SIDE_EFFECTS). -/
def postAlertTool : ToolDefinition :=
  { name := "asi.commit_post_alert"
    capability := .SIDE_EFFECTS
    risk := .HIGH
    executionMode := .SANDBOX_ONLY }

/-- The commit-registry entry for `asi.commit_post_alert`. -/
def postAlertCommitDef : CommitToolDefinition :=
  { name := "asi.commit_post_alert"
    description := "Post an alert to notification channels"
    minTrustLevel := .L3
    actionType := "COMMIT_POST_ALERT"
    autoApproveEligible := true
    risk := .MEDIUM }

/-- An evaluation context carrying a reviewer PASS. -/
def commitContext : TrustGateContext :=
  { agentName := "worker"
    runId := uuidRun
    workflowName := some "alert_triage"
    reviewerVerdict := some .PASS }

/-- An APPROVED post-alert request whose expiry is already in the past at
observation time 50. -/
def expiredApprovedRequest : ApprovalRequest :=
  { id := uuidReq
    createdAt := 0
    domain := "asi"
    runId := uuidRun
    workflowName := "alert_triage"
    requestedBy := "worker"
    trustLevel := .L3
    actionType := "asi.commit_post_alert"
    status := .APPROVED
    expiresAt := 10
    reviewerVerdict := some .PASS
    reviewerNotes := none
    autoApproveEligible := true
    autoApproveReason := none
    contextSandboxId := none }

/-- A store holding only the expired approved request. -/
def expiredApprovedStore : ApprovalStoreState :=
  { requests := [expiredApprovedRequest], decisions := [] }

/-- Agent behaviour of a standard four-stage run whose reviewer returns an
explicit FAIL verdict. -/
def reviewFailBehavior : WorkflowStage → Option ReviewerVerdict → AgentRunResult
  | .plan, _ =>
      { output := some "plan complete"
        toolCalls := []
        status := .completed
        error := none
        approvalRequestId := none
        reviewerVerdict := none }
  | .execute, _ =>
      { output := some "staged changes ready"
        toolCalls := [{ tool := "asi.stage_event_log", sandboxId := some "sandbox-1" }]
        status := .completed
        error := none
        approvalRequestId := none
        reviewerVerdict := none }
  | .review, _ =>
      { output := some "VERDICT: FAIL - stale data in brief"
        toolCalls := []
        status := .completed
        error := none
        approvalRequestId := none
        reviewerVerdict := some .FAIL }
  | .commit, _ =>
      { output := none
        toolCalls := []
        status := .requires_approval
        error := none
        approvalRequestId := none
        reviewerVerdict := none }

/-- A standard plan → execute → review → commit workflow. -/
def standardWorkflow : WorkflowDefinition :=
  { name := "daily_ops_brief"
    domain := "asi"
    agents :=
      [{ name := "ops_planner", role := .planner, maxTurns := 5 },
       { name := "ops_worker", role := .worker, maxTurns := 10 },
       { name := "ops_reviewer", role := .reviewer, maxTurns := 3 }]
    stages := [.plan, .execute, .review, .commit] }

/-- The orchestration environment of the reviewer-FAIL run. -/
def reviewFailEnv : OrchestratorEnv :=
  { workflow := standardWorkflow
    options :=
      { input := "Generate the daily operations brief"
        runId := uuidRun
        reviewerVerdict := none
        reviewerNotes := none }
    behavior := reviewFailBehavior
    hasApprovalStore := true
    now := 0
    freshId := fun n => toString n }

/-! ## Theorems -/

/-- The eligibility computed by the store equals the specification chain
amended with the L3-only gate. -/
theorem isAutoApproveEligible_eq_amendedChain (tl : TrustLevel)
    (actionType workflowName : String) (verdict : Option ReviewerVerdict) :
    isAutoApproveEligible tl actionType workflowName verdict =
      amendedAutoApproveChain tl actionType workflowName verdict := by
  cases tl <;>
    simp [isAutoApproveEligible, amendedAutoApproveChain, specAutoApproveChain]

/-- C1: for every approval request with trust level L4, the stored
auto-approve-eligible flag is false at every observation — `createRequest`
persists `autoApproveEligible = false` whenever the input trust level is
L4, and `autoApprove` on a stored L4 request returns no decision and leaves
the store unchanged. -/
theorem C1_l4_never_auto_approvable :
    (∀ (s : ApprovalStoreState) (input : CreateApprovalRequestInput) (now : Nat)
        (freshId : String) (r : ApprovalRequest) (s2 : ApprovalStoreState),
      input.trustLevel = .L4 →
      createRequest s input now freshId = (.ok r, s2) →
      r.autoApproveEligible = false) ∧
    (∀ (s : ApprovalStoreState) (id reason : String) (now : Nat) (freshId : String)
        (req : ApprovalRequest),
      getRequest s id = some req →
      req.trustLevel = .L4 →
      autoApprove s id reason now freshId = (.ok none, s)) := by
  constructor
  · intro s input now freshId r s2 hL4 hok
    by_cases hv : validCreateRequestInput input
    · simp [createRequest, hv, hL4] at hok
      obtain ⟨h, -⟩ := hok
      simp [← h]
    · simp [createRequest, hv] at hok
  · intro s id reason now freshId req hget hL4
    simp [autoApprove, hget, hL4]

/-- Witness for C1 at concrete inputs: an L4 `createRequest` input yields a
request with `autoApproveEligible = false`, and `autoApprove` on a stored
pending L4 request yields no decision and an unchanged store. -/
theorem C1_l4_never_auto_approvable_witness :
    l4Input.trustLevel = .L4 ∧
    l4CreatedRequest.autoApproveEligible = false ∧
    autoApprove l4Store uuidReq "attempted auto-approval" 5 "d1" = (.ok none, l4Store) :=
  ⟨rfl,
   C1_l4_never_auto_approvable.1 emptyStore l4Input 0 uuidReq l4CreatedRequest
     { requests := [l4CreatedRequest], decisions := [] } rfl (by decide),
   C1_l4_never_auto_approvable.2 l4Store uuidReq "attempted auto-approval" 5 "d1"
     l4StoredRequest (by decide) rfl⟩

/-- C5 counterexample: a valid L2 input with reviewer PASS and the
allow-set action type `COMMIT_POST_ALERT` is persisted with
`autoApproveEligible = false`, while the chain stated by the claim (which
has no L3-only gate) yields `true`. -/
theorem C5_chain_counterexample :
    createRequest emptyStore l2Input 0 uuidReq =
      (.ok l2CreatedRequest, { requests := [l2CreatedRequest], decisions := [] }) ∧
    l2CreatedRequest.autoApproveEligible = false ∧
    specAutoApproveChain l2Input.trustLevel l2Input.actionType l2Input.workflowName
      l2Input.reviewerVerdict = true := by
  refine ⟨by decide, rfl, by decide⟩

/-- C5 (amended): the auto-approve eligibility persisted by `createRequest`
equals the specification chain amended with the gate the code adds: a trust
level other than L3 is ineligible. -/
theorem C5_eligibility_eq_amended_chain :
    ∀ (s : ApprovalStoreState) (input : CreateApprovalRequestInput) (now : Nat)
      (freshId : String) (r : ApprovalRequest) (s2 : ApprovalStoreState),
      createRequest s input now freshId = (.ok r, s2) →
      r.autoApproveEligible =
        amendedAutoApproveChain input.trustLevel input.actionType
          input.workflowName input.reviewerVerdict := by
  intro s input now freshId r s2 hok
  by_cases hv : validCreateRequestInput input
  · simp [createRequest, hv] at hok
    obtain ⟨h, -⟩ := hok
    rw [← h]
    by_cases hL4 : input.trustLevel = .L4
    · simp [hL4, amendedAutoApproveChain]
    · simp [hL4, isAutoApproveEligible_eq_amendedChain]
  · simp [createRequest, hv] at hok

/-- Witness for the amended C5 at a concrete input: an L3 / PASS /
allow-set input is persisted eligible, matching the amended chain. -/
theorem C5_eligibility_eq_amended_chain_witness :
    l3EligibleRequest.autoApproveEligible =
      amendedAutoApproveChain l3Input.trustLevel l3Input.actionType
        l3Input.workflowName l3Input.reviewerVerdict :=
  C5_eligibility_eq_amended_chain emptyStore l3Input 0 uuidReq l3EligibleRequest
    { requests := [l3EligibleRequest], decisions := [] } (by decide)

/-- C8: the trust level computed by the gate equals the
override / CRITICAL / HIGH+SIDE_EFFECTS / HIGH-or-WRITE / PROPOSE chain of
the specification. -/
theorem C8_trust_level_derivation :
    ∀ (config : TrustGateConfig) (tool : ToolDefinition),
      getTrustLevelForTool config tool =
        specToolTrustLevel (config.toolOverrides tool.name) tool.risk tool.capability := by
  intro config tool
  unfold getTrustLevelForTool specToolTrustLevel
  cases config.toolOverrides tool.name with
  | some level => rfl
  | none => cases tool.risk <;> cases tool.capability <;> simp

/-- C3: with the isolation facility unavailable and the fail-closed flag
set, `executeWithIsolation` denies with `deniedByPolicy = true`, a failure
reason in {DOCKER_NOT_RUNNING, DOCKER_NOT_AVAILABLE}, and the handler is
never invoked; `FailClosedSandbox.execute` behaves likewise
unconditionally. -/
theorem C3_docker_unavailable_fail_closed :
    (∀ (config : SandboxPolicyConfig) (env : DockerEnv) (sandboxId : String)
        (handlerOutcome : HandlerOutcome),
      env.dockerAvailable = false →
      config.failClosedOnDockerUnavailable = true →
      (executeWithIsolation config env sandboxId handlerOutcome).result.deniedByPolicy
          = true ∧
      ((executeWithIsolation config env sandboxId handlerOutcome).result.failureReason
            = some .DOCKER_NOT_RUNNING ∨
        (executeWithIsolation config env sandboxId handlerOutcome).result.failureReason
            = some .DOCKER_NOT_AVAILABLE) ∧
      (executeWithIsolation config env sandboxId handlerOutcome).handlerInvoked
          = false) ∧
    (∀ (reason sandboxId : String),
      (failClosedExecute reason sandboxId).result.deniedByPolicy = true ∧
      (failClosedExecute reason sandboxId).result.failureReason
          = some .DOCKER_NOT_AVAILABLE ∧
      (failClosedExecute reason sandboxId).handlerInvoked = false) := by
  constructor
  · intro config env sandboxId handlerOutcome hNoDocker hFailClosed
    refine ⟨?_, ?_, ?_⟩ <;>
      · simp only [executeWithIsolation, hNoDocker, hFailClosed]
        by_cases hd : env.diagnosis = "Docker daemon is not running" <;> simp [hd]
  · intro reason sandboxId
    exact ⟨rfl, rfl, rfl⟩

/-- Witness for C3 at a concrete environment: daemon down, fail-closed
config, any handler. -/
theorem C3_docker_unavailable_fail_closed_witness :
    daemonDownEnv.dockerAvailable = false ∧
    failClosedConfig.failClosedOnDockerUnavailable = true ∧
    ((executeWithIsolation failClosedConfig daemonDownEnv "sandbox-1" .ok).result.deniedByPolicy
        = true ∧
      ((executeWithIsolation failClosedConfig daemonDownEnv "sandbox-1" .ok).result.failureReason
            = some .DOCKER_NOT_RUNNING ∨
        (executeWithIsolation failClosedConfig daemonDownEnv "sandbox-1" .ok).result.failureReason
            = some .DOCKER_NOT_AVAILABLE) ∧
      (executeWithIsolation failClosedConfig daemonDownEnv "sandbox-1" .ok).handlerInvoked
          = false) :=
  ⟨rfl, rfl,
   C3_docker_unavailable_fail_closed.1 failClosedConfig daemonDownEnv "sandbox-1" .ok
     rfl rfl⟩

/-- Membership through descending insertion. -/
theorem mem_insertByCreatedDesc (x y : ApprovalRequest) (l : List ApprovalRequest) :
    y ∈ insertByCreatedDesc x l ↔ y = x ∨ y ∈ l := by
  induction l with
  | nil => simp [insertByCreatedDesc]
  | cons a l ih =>
      by_cases h : a.createdAt < x.createdAt
      · simp [insertByCreatedDesc, h, ih]
      · simp [insertByCreatedDesc, h, ih]
        tauto

/-- Membership through the descending sort. -/
theorem mem_sortByCreatedDesc (y : ApprovalRequest) (l : List ApprovalRequest) :
    y ∈ sortByCreatedDesc l ↔ y ∈ l := by
  induction l with
  | nil => simp [sortByCreatedDesc]
  | cons a l ih => simp [sortByCreatedDesc, mem_insertByCreatedDesc, ih]

/-- Descending insertion preserves the descending order. -/
theorem pairwise_insertByCreatedDesc (x : ApprovalRequest) (l : List ApprovalRequest)
    (h : l.Pairwise (fun a b => b.createdAt ≤ a.createdAt)) :
    (insertByCreatedDesc x l).Pairwise (fun a b => b.createdAt ≤ a.createdAt) := by
  induction l with
  | nil => simp [insertByCreatedDesc]
  | cons a l ih =>
      cases h with
      | cons ha hl =>
        by_cases hc : a.createdAt < x.createdAt
        · simp only [insertByCreatedDesc, if_pos hc]
          refine List.Pairwise.cons ?_ (List.Pairwise.cons ha hl)
          intro b hb
          rcases List.mem_cons.mp hb with rfl | hb
          · exact le_of_lt hc
          · exact le_trans (ha b hb) (le_of_lt hc)
        · simp only [insertByCreatedDesc, if_neg hc]
          refine List.Pairwise.cons ?_ (ih hl)
          intro b hb
          rcases (mem_insertByCreatedDesc x b l).mp hb with rfl | hb
          · exact le_of_not_lt hc
          · exact ha b hb

/-- The descending sort is sorted by creation time descending. -/
theorem pairwise_sortByCreatedDesc (l : List ApprovalRequest) :
    (sortByCreatedDesc l).Pairwise (fun a b => b.createdAt ≤ a.createdAt) := by
  induction l with
  | nil => simp [sortByCreatedDesc]
  | cons a l ih => exact pairwise_insertByCreatedDesc a _ ih

/-- C9: with no filters, `getPendingRequests` returns exactly the stored
requests with status PENDING and expiry strictly greater than `now`
(so a request with `expiresAt = t` is excluded exactly when `now ≥ t`),
ordered by creation time descending. -/
theorem C9_pending_requests_exact :
    ∀ (s : ApprovalStoreState) (now : Nat),
      (∀ r, r ∈ getPendingRequests s now ⟨none, none, none⟩ ↔
        (r ∈ s.requests ∧ r.status = .PENDING ∧ now < r.expiresAt)) ∧
      (getPendingRequests s now ⟨none, none, none⟩).Pairwise
        (fun a b => b.createdAt ≤ a.createdAt) := by
  intro s now
  constructor
  · intro r
    simp [getPendingRequests, mem_sortByCreatedDesc, List.mem_filter, and_assoc]
  · simp only [getPendingRequests]
    exact pairwise_sortByCreatedDesc _

/-- C2 counterexample: an `asi.commit_apply_changes` eligibility check with
all of gates 1–7 passing but no sandbox associated with the request (and an
empty ledger, so no sandbox anywhere has a non-empty staged-change set) is
reported eligible: gate 8 is skipped entirely when the request context
carries no sandbox id, contradicting the claim that eligibility requires a
non-empty staged-change set for apply_changes. -/
theorem C2_gate8_skipped_counterexample :
    (verifyCommitEligibility applyNoSandboxStore [] 50 uuidRun
      "asi.commit_apply_changes").eligible = true ∧
    (verifyCommitEligibility applyNoSandboxStore [] 50 uuidRun
      "asi.commit_apply_changes").stagedChanges = none ∧
    applyNoSandboxRequest.contextSandboxId = none := by
  refine ⟨by decide, by decide, rfl⟩

/-- C2 (amended): `verifyCommitEligibility` reports eligible exactly when
the eight gates pass, where gate 8 (non-empty staged-change set, for
apply_changes only) is checked only when the approval request's context
carries a sandbox id; and every denial carries a reason beginning with the
fail-closed marker. -/
theorem C2_commit_eligibility_amended :
    ∀ (store : ApprovalStoreState) (ledger : SandboxLedger) (now : Nat)
      (runId toolName : String),
      ((verifyCommitEligibility store ledger now runId toolName).eligible = true ↔
        (runId ≠ "" ∧ toolName ≠ "" ∧
          ∃ toolDef, getCommitTool toolName = some toolDef ∧
            ∃ req,
              (getRequestsByRunId store runId).find? (fun r =>
                r.actionType = toolDef.actionType || r.actionType = toolName) =
                  some req ∧
              toolDef.minTrustLevel.idx ≤ req.trustLevel.idx ∧
              req.status = .APPROVED ∧
              req.reviewerVerdict = some .PASS ∧
              now ≤ req.expiresAt ∧
              (toolName = "asi.commit_apply_changes" →
                ∀ sid, req.contextSandboxId = some sid →
                  (getStagedChanges ledger sid).isEmpty = false))) ∧
      ((verifyCommitEligibility store ledger now runId toolName).eligible = false →
        ∃ rest,
          (verifyCommitEligibility store ledger now runId toolName).reason =
            some ("FAIL CLOSED: " ++ rest)) := by
  intro store ledger now runId toolName
  by_cases h1 : runId = ""
  · have hres : verifyCommitEligibility store ledger now runId toolName =
        commitDeny "FAIL CLOSED: Invalid or missing runId" none := by
      simp only [verifyCommitEligibility, if_pos h1]
    refine ⟨⟨fun htrue => ?_, fun hrhs => absurd hrhs.1 (not_not.mpr h1)⟩,
      fun _ => ⟨"Invalid or missing runId", by rw [hres]; rfl⟩⟩
    rw [hres] at htrue
    exact absurd htrue (by simp [commitDeny])
  by_cases h2 : toolName = ""
  · have hres : verifyCommitEligibility store ledger now runId toolName =
        commitDeny "FAIL CLOSED: Invalid or missing toolName" none := by
      simp only [verifyCommitEligibility, if_neg h1, if_pos h2]
    refine ⟨⟨fun htrue => ?_, fun hrhs => absurd hrhs.2.1 (not_not.mpr h2)⟩,
      fun _ => ⟨"Invalid or missing toolName", by rw [hres]; rfl⟩⟩
    rw [hres] at htrue
    exact absurd htrue (by simp [commitDeny])
  cases hct : getCommitTool toolName with
  | none =>
      have hres : verifyCommitEligibility store ledger now runId toolName =
          commitDeny ("FAIL CLOSED: " ++ (toolName ++
            " is not a registered commit tool. Only commit tools can make irreversible changes.")) none := by
        simp only [verifyCommitEligibility, if_neg h1, if_neg h2, hct]
      refine ⟨⟨fun htrue => ?_, fun hrhs => ?_⟩, fun _ => ⟨_, by rw [hres]; rfl⟩⟩
      · rw [hres] at htrue
        exact absurd htrue (by simp [commitDeny])
      · obtain ⟨-, -, td, hct', -⟩ := hrhs
        exact absurd hct' (by simp)
  | some toolDef =>
    cases hfind : (getRequestsByRunId store runId).find? (fun r =>
        r.actionType = toolDef.actionType || r.actionType = toolName) with
    | none =>
        have hiff : ¬ (runId ≠ "" ∧ toolName ≠ "" ∧
            ∃ td, some toolDef = some td ∧
              ∃ req, (getRequestsByRunId store runId).find? (fun r =>
                  r.actionType = td.actionType || r.actionType = toolName) =
                    some req ∧
                td.minTrustLevel.idx ≤ req.trustLevel.idx ∧
                req.status = .APPROVED ∧
                req.reviewerVerdict = some .PASS ∧
                now ≤ req.expiresAt ∧
                (toolName = "asi.commit_apply_changes" →
                  ∀ sid, req.contextSandboxId = some sid →
                    (getStagedChanges ledger sid).isEmpty = false)) := by
          rintro ⟨-, -, td, hct', req, hfind', -⟩
          cases hct'
          rw [hfind] at hfind'
          exact absurd hfind' (by simp)
        by_cases hemp : (getRequestsByRunId store runId).isEmpty
        · have hres : verifyCommitEligibility store ledger now runId toolName =
              commitDeny ("FAIL CLOSED: " ++ ("No approval request found for run " ++
                runId ++ ". All commit operations require prior approval.")) none := by
            simp only [verifyCommitEligibility, if_neg h1, if_neg h2, hct, if_pos hemp]
          refine ⟨⟨fun htrue => ?_, fun hrhs => absurd hrhs hiff⟩,
            fun _ => ⟨_, by rw [hres]; rfl⟩⟩
          rw [hres] at htrue
          exact absurd htrue (by simp [commitDeny])
        · have hres : verifyCommitEligibility store ledger now runId toolName =
              commitDeny ("FAIL CLOSED: " ++
                ("No approval request found for action type " ++
                toolDef.actionType ++ ". Approval must be requested before commit.")) none := by
            simp only [verifyCommitEligibility, if_neg h1, if_neg h2, hct,
              if_neg hemp, hfind]
          refine ⟨⟨fun htrue => ?_, fun hrhs => absurd hrhs hiff⟩,
            fun _ => ⟨_, by rw [hres]; rfl⟩⟩
          rw [hres] at htrue
          exact absurd htrue (by simp [commitDeny])
    | some req =>
      have hemp : ¬ (getRequestsByRunId store runId).isEmpty := by
        intro he
        rw [List.isEmpty_iff] at he
        rw [he] at hfind
        exact absurd hfind (by simp)
      have hbase :
          (runId ≠ "" ∧ toolName ≠ "" ∧
            ∃ td, some toolDef = some td ∧
              ∃ r, (getRequestsByRunId store runId).find? (fun x =>
                  x.actionType = td.actionType || x.actionType = toolName) =
                    some r ∧
                td.minTrustLevel.idx ≤ r.trustLevel.idx ∧
                r.status = .APPROVED ∧
                r.reviewerVerdict = some .PASS ∧
                now ≤ r.expiresAt ∧
                (toolName = "asi.commit_apply_changes" →
                  ∀ sid, r.contextSandboxId = some sid →
                    (getStagedChanges ledger sid).isEmpty = false)) ↔
            (toolDef.minTrustLevel.idx ≤ req.trustLevel.idx ∧
              req.status = .APPROVED ∧
              req.reviewerVerdict = some .PASS ∧
              now ≤ req.expiresAt ∧
              (toolName = "asi.commit_apply_changes" →
                ∀ sid, req.contextSandboxId = some sid →
                  (getStagedChanges ledger sid).isEmpty = false)) := by
        constructor
        · rintro ⟨-, -, td, hct', r, hfind', hrest⟩
          cases hct'
          rw [hfind] at hfind'
          cases hfind'
          exact hrest
        · intro hrest
          exact ⟨h1, h2, toolDef, rfl, req, hfind, hrest⟩
      by_cases h4 : req.trustLevel.idx < toolDef.minTrustLevel.idx
      · have hres : verifyCommitEligibility store ledger now runId toolName =
            commitDeny ("FAIL CLOSED: " ++ ("Trust level below required minimum for " ++
              toolName)) (some req) := by
          simp only [verifyCommitEligibility, if_neg h1, if_neg h2, hct,
            if_neg hemp, hfind, if_pos h4]
        refine ⟨⟨fun htrue => ?_, fun hrhs => absurd (hbase.mp hrhs).1 (by omega)⟩,
          fun _ => ⟨_, by rw [hres]; rfl⟩⟩
        rw [hres] at htrue
        exact absurd htrue (by simp [commitDeny])
      by_cases h5 : req.status = .APPROVED
      case neg =>
        have hres : verifyCommitEligibility store ledger now runId toolName =
            commitDeny ("FAIL CLOSED: " ++ ("Approval status is " ++
              req.status.asString ++
              ", must be APPROVED. Commit operations require explicit approval."))
              (some req) := by
          simp only [verifyCommitEligibility, if_neg h1, if_neg h2, hct,
            if_neg hemp, hfind, if_neg h4,
            if_pos (show req.status ≠ .APPROVED from h5)]
        refine ⟨⟨fun htrue => ?_, fun hrhs => absurd (hbase.mp hrhs).2.1 h5⟩,
          fun _ => ⟨_, by rw [hres]; rfl⟩⟩
        rw [hres] at htrue
        exact absurd htrue (by simp [commitDeny])
      case pos =>
      by_cases h6 : req.reviewerVerdict = some .PASS
      case neg =>
        have hres : verifyCommitEligibility store ledger now runId toolName =
            commitDeny
              "FAIL CLOSED: Reviewer verdict must be PASS. All commits require reviewer approval."
              (some req) := by
          simp only [verifyCommitEligibility, if_neg h1, if_neg h2, hct,
            if_neg hemp, hfind, if_neg h4,
            if_neg (show ¬ req.status ≠ .APPROVED from not_not.mpr h5),
            if_pos (show req.reviewerVerdict ≠ some .PASS from h6)]
        refine ⟨⟨fun htrue => ?_, fun hrhs => absurd (hbase.mp hrhs).2.2.1 h6⟩,
          fun _ =>
            ⟨"Reviewer verdict must be PASS. All commits require reviewer approval.",
              by rw [hres]; rfl⟩⟩
        rw [hres] at htrue
        exact absurd htrue (by simp [commitDeny])
      case pos =>
      by_cases h7 : req.expiresAt < now
      · have hres : verifyCommitEligibility store ledger now runId toolName =
            commitDeny
              "FAIL CLOSED: Approval request has expired. A new approval must be requested."
              (some req) := by
          simp only [verifyCommitEligibility, if_neg h1, if_neg h2, hct,
            if_neg hemp, hfind, if_neg h4,
            if_neg (show ¬ req.status ≠ .APPROVED from not_not.mpr h5),
            if_neg (show ¬ req.reviewerVerdict ≠ some .PASS from not_not.mpr h6),
            if_pos h7]
        refine ⟨⟨fun htrue => ?_,
            fun hrhs => absurd (hbase.mp hrhs).2.2.2.1 (by omega)⟩,
          fun _ =>
            ⟨"Approval request has expired. A new approval must be requested.",
              by rw [hres]; rfl⟩⟩
        rw [hres] at htrue
        exact absurd htrue (by simp [commitDeny])
      by_cases h8 : toolName = "asi.commit_apply_changes"
      · cases hsid : req.contextSandboxId with
        | some sid =>
          by_cases h9 : (getStagedChanges ledger sid).isEmpty
          · have hres : verifyCommitEligibility store ledger now runId toolName =
                commitDeny
                  "FAIL CLOSED: No staged changes found to commit. Changes must be staged before commit_apply_changes."
                  (some req) := by
              simp only [verifyCommitEligibility, if_neg h1, if_neg h2, hct,
                if_neg hemp, hfind, if_neg h4,
                if_neg (show ¬ req.status ≠ .APPROVED from not_not.mpr h5),
                if_neg (show ¬ req.reviewerVerdict ≠ some .PASS from not_not.mpr h6),
                if_neg h7, if_pos h8, hsid, if_pos h9]
            refine ⟨⟨fun htrue => ?_, fun hrhs => ?_⟩,
              fun _ =>
                ⟨"No staged changes found to commit. Changes must be staged before commit_apply_changes.",
                  by rw [hres]; rfl⟩⟩
            · rw [hres] at htrue
              exact absurd htrue (by simp [commitDeny])
            · have hg8 := (hbase.mp hrhs).2.2.2.2 h8 sid hsid
              rw [h9] at hg8
              exact absurd hg8 (by simp)
          · have hres : verifyCommitEligibility store ledger now runId toolName =
                { eligible := true
                  reason := none
                  approvalRequest := some req
                  stagedChanges := some (getStagedChanges ledger sid) } := by
              simp only [verifyCommitEligibility, if_neg h1, if_neg h2, hct,
                if_neg hemp, hfind, if_neg h4,
                if_neg (show ¬ req.status ≠ .APPROVED from not_not.mpr h5),
                if_neg (show ¬ req.reviewerVerdict ≠ some .PASS from not_not.mpr h6),
                if_neg h7, if_pos h8, hsid, if_neg h9]
            refine ⟨⟨fun _ => hbase.mpr
                ⟨Nat.le_of_not_lt h4, h5, h6, Nat.le_of_not_lt h7,
                 fun _ sid' hsid' => by
                   rw [hsid] at hsid'
                   cases hsid'
                   exact Bool.eq_false_iff.mpr h9⟩,
              fun _ => by rw [hres]⟩, fun hfalse => ?_⟩
            rw [hres] at hfalse
            exact absurd hfalse (by simp)
        | none =>
          have hres : verifyCommitEligibility store ledger now runId toolName =
              { eligible := true
                reason := none
                approvalRequest := some req
                stagedChanges := none } := by
            simp only [verifyCommitEligibility, if_neg h1, if_neg h2, hct,
              if_neg hemp, hfind, if_neg h4,
              if_neg (show ¬ req.status ≠ .APPROVED from not_not.mpr h5),
              if_neg (show ¬ req.reviewerVerdict ≠ some .PASS from not_not.mpr h6),
              if_neg h7, if_pos h8, hsid]
          refine ⟨⟨fun _ => hbase.mpr
              ⟨Nat.le_of_not_lt h4, h5, h6, Nat.le_of_not_lt h7,
               fun _ sid' hsid' => by
                 rw [hsid] at hsid'
                 exact absurd hsid' (by simp)⟩,
            fun _ => by rw [hres]⟩, fun hfalse => ?_⟩
          rw [hres] at hfalse
          exact absurd hfalse (by simp)
      · have hres : verifyCommitEligibility store ledger now runId toolName =
            { eligible := true
              reason := none
              approvalRequest := some req
              stagedChanges := none } := by
          simp only [verifyCommitEligibility, if_neg h1, if_neg h2, hct,
            if_neg hemp, hfind, if_neg h4,
            if_neg (show ¬ req.status ≠ .APPROVED from not_not.mpr h5),
            if_neg (show ¬ req.reviewerVerdict ≠ some .PASS from not_not.mpr h6),
            if_neg h7, if_neg h8]
        refine ⟨⟨fun _ => hbase.mpr
            ⟨Nat.le_of_not_lt h4, h5, h6, Nat.le_of_not_lt h7,
             fun h8' => absurd h8' h8⟩,
          fun _ => by rw [hres]⟩, fun hfalse => ?_⟩
        rw [hres] at hfalse
        exact absurd hfalse (by simp)

/-- Witness for the amended C2: at a concrete approved post-alert request
all gates pass and the boundary reports eligible; at the empty store the
denial reason carries the fail-closed marker. -/
theorem C2_commit_eligibility_amended_witness :
    (verifyCommitEligibility approvedAlertStore [] 50 uuidRun
      "asi.commit_post_alert").eligible = true ∧
    (∃ rest,
      (verifyCommitEligibility emptyStore [] 0 uuidRun
        "asi.commit_post_alert").reason = some ("FAIL CLOSED: " ++ rest)) :=
  ⟨(C2_commit_eligibility_amended approvedAlertStore [] 50 uuidRun
      "asi.commit_post_alert").1.mpr
    ⟨by decide, by decide,
     ⟨_, rfl, approvedAlertRequest, by decide, by decide, by decide, by decide,
      by decide, fun h => absurd h (by decide)⟩⟩,
   (C2_commit_eligibility_amended emptyStore [] 0 uuidRun
      "asi.commit_post_alert").2 (by decide)⟩

/-- Looking up a request after an in-place update that preserves the id. -/
theorem getRequest_updateRequest (s : ApprovalStoreState) (id : String)
    (f : ApprovalRequest → ApprovalRequest) (hf : ∀ r, (f r).id = r.id) :
    getRequest (updateRequest s id f) id = (getRequest s id).map f := by
  show (s.requests.map fun r => if r.id = id then f r else r).find?
      (fun r => r.id = id) = (s.requests.find? (fun r => r.id = id)).map f
  induction s.requests with
  | nil => rfl
  | cons a l ih =>
      by_cases ha : a.id = id
      · simp [List.find?_cons, ha, hf a]
      · simp [List.find?_cons, ha, ih]

/-- The decisions map is untouched by a request update. -/
theorem getDecision_updateRequest (s : ApprovalStoreState) (id did : String)
    (f : ApprovalRequest → ApprovalRequest) :
    getDecision (updateRequest s id f) did = getDecision s did := rfl

/-- C4 counterexample: `autoApprove` on a request id that does not exist —
the failure of the first gate, "request exists" — raises a fail-closed
exception instead of returning "no decision". -/
theorem C4_missing_request_throws_counterexample :
    autoApprove emptyStore "missing-request" "auto" 0 "d1" =
      (.error "FAIL CLOSED: Approval request not found: missing-request",
        emptyStore) := by
  rfl

/-- C4 (amended): on a stored request with no prior decision,
`autoApprove` produces an APPROVE decision with decided-by
`system:auto-approve` exactly when gates 2–6 pass (trust level not L4,
status PENDING, auto-approve-eligible, reviewer PASS, not expired); the
failure of any of those gates returns no decision, without an exception,
and leaves the store unchanged.  Only a missing request (see the
counterexample) raises. -/
theorem C4_auto_approve_gates_amended :
    ∀ (s : ApprovalStoreState) (id reason : String) (now : Nat) (freshId : String)
      (req : ApprovalRequest),
      getRequest s id = some req →
      getDecision s id = none →
      isUuid id = true →
      (((∃ d s2, autoApprove s id reason now freshId = (.ok (some d), s2) ∧
          d.decidedBy = "system:auto-approve" ∧ d.decision = .APPROVE) ↔
        (req.trustLevel ≠ .L4 ∧ req.status = .PENDING ∧
          req.autoApproveEligible = true ∧ req.reviewerVerdict = some .PASS ∧
          now ≤ req.expiresAt)) ∧
      (¬ (req.trustLevel ≠ .L4 ∧ req.status = .PENDING ∧
          req.autoApproveEligible = true ∧ req.reviewerVerdict = some .PASS ∧
          now ≤ req.expiresAt) →
        autoApprove s id reason now freshId = (.ok none, s))) := by
  intro s id reason now freshId req hget hdec huuid
  by_cases g1 : req.trustLevel = .L4
  · have hres : autoApprove s id reason now freshId = (.ok none, s) := by
      simp [autoApprove, hget, g1]
    refine ⟨⟨?_, ?_⟩, fun _ => hres⟩
    · rintro ⟨d, s2, heq, -, -⟩
      rw [hres] at heq
      simp at heq
    · rintro ⟨g1', -⟩
      exact absurd g1 g1'
  by_cases g2 : req.status = .PENDING
  case neg =>
    have hres : autoApprove s id reason now freshId = (.ok none, s) := by
      simp [autoApprove, hget, g1, g2]
    refine ⟨⟨?_, ?_⟩, fun _ => hres⟩
    · rintro ⟨d, s2, heq, -, -⟩
      rw [hres] at heq
      simp at heq
    · rintro ⟨-, g2', -⟩
      exact absurd g2' g2
  case pos =>
  by_cases g3 : req.autoApproveEligible = true
  case neg =>
    have hres : autoApprove s id reason now freshId = (.ok none, s) := by
      simp [autoApprove, hget, g1, g2, g3]
    refine ⟨⟨?_, ?_⟩, fun _ => hres⟩
    · rintro ⟨d, s2, heq, -, -⟩
      rw [hres] at heq
      simp at heq
    · rintro ⟨-, -, g3', -⟩
      exact absurd g3' g3
  case pos =>
  by_cases g4 : req.reviewerVerdict = some .PASS
  case neg =>
    have hres : autoApprove s id reason now freshId = (.ok none, s) := by
      simp [autoApprove, hget, g1, g2, g3, g4]
    refine ⟨⟨?_, ?_⟩, fun _ => hres⟩
    · rintro ⟨d, s2, heq, -, -⟩
      rw [hres] at heq
      simp at heq
    · rintro ⟨-, -, -, g4', -⟩
      exact absurd g4' g4
  case pos =>
  by_cases g5 : req.expiresAt < now
  · have hres : autoApprove s id reason now freshId = (.ok none, s) := by
      simp [autoApprove, hget, g1, g2, g3, g4, g5]
    refine ⟨⟨?_, ?_⟩, fun _ => hres⟩
    · rintro ⟨d, s2, heq, -, -⟩
      rw [hres] at heq
      simp at heq
    · rintro ⟨-, -, -, -, g5'⟩
      omega
  · -- every gate passes: the reason update succeeds and the decision is
    -- inserted with decided-by system:auto-approve
    have hvalid : validCreateDecisionInput
        { approvalRequestId := id
          decidedBy := "system:auto-approve"
          decision := .APPROVE
          notes := some reason } = true := by
      simp [validCreateDecisionInput, huuid]
    have hget1 : getRequest
        (updateRequest s id (fun r => { r with autoApproveReason := some reason })) id =
        some { req with autoApproveReason := some reason } := by
      rw [getRequest_updateRequest s id
        (fun r => { r with autoApproveReason := some reason }) (fun r => rfl), hget]
      rfl
    have hdec1 : getDecision
        (updateRequest s id (fun r => { r with autoApproveReason := some reason })) id =
        none := by
      rw [getDecision_updateRequest]
      exact hdec
    have hcd : createDecision
        (updateRequest s id (fun r => { r with autoApproveReason := some reason }))
        { approvalRequestId := id
          decidedBy := "system:auto-approve"
          decision := .APPROVE
          notes := some reason } now freshId =
        (.ok { id := freshId
               createdAt := now
               approvalRequestId := id
               decidedBy := "system:auto-approve"
               decision := .APPROVE
               notes := some reason },
         { requests := (updateRequest
              (updateRequest s id (fun r => { r with autoApproveReason := some reason }))
              id (fun r => { r with status := .APPROVED })).requests
           decisions := (updateRequest s id
              (fun r => { r with autoApproveReason := some reason })).decisions ++
             [{ id := freshId
                createdAt := now
                approvalRequestId := id
                decidedBy := "system:auto-approve"
                decision := .APPROVE
                notes := some reason }] }) := by
      simp [createDecision, hvalid, hget1, hdec1, g2, Nat.not_lt.mpr (Nat.le_of_not_lt g5)]
    have hres : autoApprove s id reason now freshId =
        (.ok (some { id := freshId
                     createdAt := now
                     approvalRequestId := id
                     decidedBy := "system:auto-approve"
                     decision := .APPROVE
                     notes := some reason }),
         { requests := (updateRequest
              (updateRequest s id (fun r => { r with autoApproveReason := some reason }))
              id (fun r => { r with status := .APPROVED })).requests
           decisions := (updateRequest s id
              (fun r => { r with autoApproveReason := some reason })).decisions ++
             [{ id := freshId
                createdAt := now
                approvalRequestId := id
                decidedBy := "system:auto-approve"
                decision := .APPROVE
                notes := some reason }] }) := by
      simp only [autoApprove, hget, if_neg g1,
        if_neg (show ¬ req.status ≠ .PENDING from not_not.mpr g2),
        if_neg (show ¬ ¬ req.autoApproveEligible = true from not_not.mpr g3),
        if_neg (show ¬ req.reviewerVerdict ≠ some .PASS from not_not.mpr g4),
        if_neg g5, hcd]
    refine ⟨⟨fun _ => ⟨g1, g2, g3, g4, Nat.le_of_not_lt g5⟩, fun _ => ?_⟩,
      fun hno => absurd ⟨g1, g2, g3, g4, Nat.le_of_not_lt g5⟩ hno⟩
    exact ⟨_, _, hres, rfl, rfl⟩

/-- Witness for the amended C4: auto-approval of the concrete pending
eligible L3 request produces a `system:auto-approve` APPROVE decision. -/
theorem C4_auto_approve_gates_amended_witness :
    ∃ d s2, autoApprove l3Store uuidReq "auto" 5 "d1" = (.ok (some d), s2) ∧
      d.decidedBy = "system:auto-approve" ∧ d.decision = .APPROVE :=
  ((C4_auto_approve_gates_amended l3Store uuidReq "auto" 5 "d1" l3EligibleRequest
      (by decide) rfl (by decide)).1).mpr (by decide)

/-- Searching an appended list when the first part has no match. -/
theorem list_find?_append_of_none {α : Type} (p : α → Bool) (l1 l2 : List α)
    (h : l1.find? p = none) : (l1 ++ l2).find? p = l2.find? p := by
  induction l1 with
  | nil => rfl
  | cons a l ih =>
      cases hpa : p a with
      | true =>
          rw [List.find?_cons_of_pos _ hpa] at h
          exact absurd h (by simp)
      | false =>
          rw [List.find?_cons_of_neg _ (by simp [hpa])] at h
          rw [List.cons_append, List.find?_cons_of_neg _ (by simp [hpa])]
          exact ih h

/-- A list with no match filters to nothing. -/
theorem list_filter_eq_nil_of_find?_none {α : Type} (p : α → Bool) (l : List α)
    (h : l.find? p = none) : l.filter p = [] := by
  rw [List.filter_eq_nil_iff]
  rw [List.find?_eq_none] at h
  exact h

/-- C7 counterexample: after an APPROVE decision, a second decision attempt
on the same request is rejected, but with the status-based error
"Cannot decide on request with status: APPROVED" (raised by the
still-PENDING check), not the distinguishable "already decided" error the
claim names; the store is unchanged by the failed attempt. -/
theorem C7_second_decision_error_counterexample :
    createDecision l3Store opsLeadInput 5 "d1" = (.ok opsLeadDecision, decidedL3Store) ∧
    createDecision decidedL3Store opsLeadInput 6 "d2" =
      (.error "Cannot decide on request with status: APPROVED", decidedL3Store) ∧
    "Cannot decide on request with status: APPROVED" ≠
      "A decision has already been made for this request" := by
  refine ⟨by decide, by decide, by decide⟩

/-- C7 (amended): `createDecision` succeeds only on an existing, PENDING,
unexpired request with no prior decision; success performs the
APPROVE→APPROVED / REJECT→REJECTED transition and stores exactly one
decision for the request; a second attempt on the now-decided request is
rejected — with the status-based "Cannot decide on request with status"
error, the "already decided" error being reserved for the uniqueness
constraint — and the failed attempt leaves the store unchanged. -/
theorem C7_decision_lifecycle_amended :
    ∀ (s : ApprovalStoreState) (input : CreateDecisionInput) (now : Nat)
      (freshId : String) (d : ApprovalDecision) (s2 : ApprovalStoreState),
      createDecision s input now freshId = (.ok d, s2) →
      ∃ req, getRequest s input.approvalRequestId = some req ∧
        req.status = .PENDING ∧
        now ≤ req.expiresAt ∧
        getDecision s input.approvalRequestId = none ∧
        getRequest s2 input.approvalRequestId =
          some { req with
            status := if input.decision = .APPROVE then .APPROVED else .REJECTED } ∧
        getDecision s2 input.approvalRequestId = some d ∧
        s2.decisions.filter
          (fun x => x.approvalRequestId = input.approvalRequestId) = [d] ∧
        (∀ (input2 : CreateDecisionInput) (now2 : Nat) (freshId2 : String),
          input2.approvalRequestId = input.approvalRequestId →
          validCreateDecisionInput input2 = true →
          createDecision s2 input2 now2 freshId2 =
            (.error ("Cannot decide on request with status: " ++
              (if input.decision = .APPROVE then ApprovalStatus.APPROVED
               else ApprovalStatus.REJECTED).asString), s2)) := by
  intro s input now freshId d s2 hok
  by_cases hv : validCreateDecisionInput input
  case neg => simp [createDecision, hv] at hok
  case pos =>
  cases hget : getRequest s input.approvalRequestId with
  | none => simp [createDecision, hv, hget] at hok
  | some req =>
    by_cases hp : req.status = .PENDING
    case neg => simp [createDecision, hv, hget, hp] at hok
    case pos =>
    by_cases he : req.expiresAt < now
    · simp [createDecision, hv, hget, hp, he] at hok
    by_cases hd0 : (getDecision s input.approvalRequestId).isSome
    · simp [createDecision, hv, hget, hp, he, hd0] at hok
    have hdn : getDecision s input.approvalRequestId = none :=
      Option.not_isSome_iff_eq_none.mp hd0
    simp only [createDecision,
      if_neg (show ¬ ¬ validCreateDecisionInput input = true from not_not.mpr hv),
      hget, if_neg (not_not.mpr hp), if_neg he, if_neg hd0,
      Prod.mk.injEq, Except.ok.injEq] at hok
    obtain ⟨hd_eq, hs_eq⟩ := hok
    subst hd_eq
    subst hs_eq
    have hupd : getRequest
        (updateRequest s input.approvalRequestId
          (fun r => { r with
            status := if input.decision = .APPROVE then .APPROVED else .REJECTED }))
        input.approvalRequestId =
        some { req with
          status := if input.decision = .APPROVE then .APPROVED else .REJECTED } := by
      rw [getRequest_updateRequest s input.approvalRequestId
        (fun r => { r with
          status := if input.decision = .APPROVE then .APPROVED else .REJECTED })
        (fun r => rfl), hget]
      rfl
    refine ⟨req, rfl, hp, Nat.le_of_not_lt he, hdn, hupd, ?_, ?_, ?_⟩
    · show (s.decisions ++ [_]).find? _ = _
      rw [list_find?_append_of_none _ _ _ hdn]
      simp [List.find?_cons]
    · show (s.decisions ++ [_]).filter _ = _
      rw [List.filter_append, list_filter_eq_nil_of_find?_none _ _ hdn]
      simp
    · intro input2 now2 freshId2 hid hv2
      have hget2 : getRequest
          { requests := (updateRequest s input.approvalRequestId
              (fun r => { r with
                status := if input.decision = .APPROVE then .APPROVED
                  else .REJECTED })).requests
            decisions := s.decisions ++
              [{ id := freshId
                 createdAt := now
                 approvalRequestId := input.approvalRequestId
                 decidedBy := input.decidedBy
                 decision := input.decision
                 notes := input.notes }] } input2.approvalRequestId =
          some { req with
            status := if input.decision = .APPROVE then .APPROVED else .REJECTED } := by
        rw [hid]
        exact hupd
      have hne : (if input.decision = .APPROVE then ApprovalStatus.APPROVED
          else ApprovalStatus.REJECTED) ≠ .PENDING := by
        cases input.decision <;> simp
      simp only [createDecision,
        if_neg (show ¬ ¬ validCreateDecisionInput input2 = true from not_not.mpr hv2),
        hget2, if_pos hne]

/-- Witness for the amended C7 at the concrete pending L3 request: the
decision succeeds, transitions the status, stores exactly one decision,
and a repeat attempt is rejected with the status-based error. -/
theorem C7_decision_lifecycle_amended_witness :
    ∃ req, getRequest l3Store opsLeadInput.approvalRequestId = some req ∧
      req.status = .PENDING ∧
      5 ≤ req.expiresAt ∧
      getDecision l3Store opsLeadInput.approvalRequestId = none ∧
      getRequest decidedL3Store opsLeadInput.approvalRequestId =
        some { req with
          status := if opsLeadInput.decision = .APPROVE then .APPROVED
            else .REJECTED } ∧
      getDecision decidedL3Store opsLeadInput.approvalRequestId =
        some opsLeadDecision ∧
      decidedL3Store.decisions.filter
        (fun x => x.approvalRequestId = opsLeadInput.approvalRequestId) =
          [opsLeadDecision] ∧
      (∀ (input2 : CreateDecisionInput) (now2 : Nat) (freshId2 : String),
        input2.approvalRequestId = opsLeadInput.approvalRequestId →
        validCreateDecisionInput input2 = true →
        createDecision decidedL3Store input2 now2 freshId2 =
          (.error ("Cannot decide on request with status: " ++
            (if opsLeadInput.decision = .APPROVE then ApprovalStatus.APPROVED
             else ApprovalStatus.REJECTED).asString), decidedL3Store)) :=
  C7_decision_lifecycle_amended l3Store opsLeadInput 5 "d1" opsLeadDecision
    decidedL3Store (by decide)

/-- Witness for C8 at a concrete config and tool. -/
theorem C8_trust_level_derivation_witness :
    getTrustLevelForTool demoOverridesConfig postAlertTool =
      specToolTrustLevel (demoOverridesConfig.toolOverrides postAlertTool.name)
        postAlertTool.risk postAlertTool.capability :=
  C8_trust_level_derivation demoOverridesConfig postAlertTool

/-- Witness for C9 at a concrete store and time: the pending unexpired
request is returned. -/
theorem C9_pending_requests_exact_witness :
    l3EligibleRequest ∈ getPendingRequests l3Store 5 ⟨none, none, none⟩ :=
  ((C9_pending_requests_exact l3Store 5).1 l3EligibleRequest).mpr (by decide)

/-- C10: on the APPROVED path of `evaluateWithApproval` the wall-clock
expiry of the matching request is never consulted — with a matching
APPROVED request whose reviewer verdict satisfies the requirement, the gate
allows even when `expiresAt` lies in the past (only a terminal EXPIRED
status would deny); the expiry of an APPROVED request is enforced by the
commit boundary, whose gate 7 denies the same request as expired. -/
theorem C10_approved_path_ignores_expiry :
    ∀ (gate : TrustGate) (tool : ToolDefinition) (stage : WorkflowStage)
      (context : TrustGateContext) (store : ApprovalStoreState)
      (req : ApprovalRequest) (now : Nat) (ledger : SandboxLedger)
      (toolDef : CommitToolDefinition),
      (evaluate gate tool stage context).requiresApproval = true →
      (getRequestsByRunId store context.runId).find?
        (matchesToolRequest tool.name) = some req →
      req.status = .APPROVED →
      req.reviewerVerdict = some .PASS →
      req.expiresAt < now →
      ((evaluateWithApproval gate tool stage context (some store)).allowed = true ∧
        (tool.name ≠ "" → context.runId ≠ "" →
          getCommitTool tool.name = some toolDef →
          (getRequestsByRunId store context.runId).find? (fun r =>
            r.actionType = toolDef.actionType || r.actionType = tool.name) =
              some req →
          toolDef.minTrustLevel.idx ≤ req.trustLevel.idx →
          (verifyCommitEligibility store ledger now context.runId
            tool.name).eligible = false ∧
          (verifyCommitEligibility store ledger now context.runId
            tool.name).reason = some
              "FAIL CLOSED: Approval request has expired. A new approval must be requested.")) := by
  intro gate tool stage context store req now ledger toolDef happ hfind hstat hverd hexp
  constructor
  · simp [evaluateWithApproval, happ, hfind, hstat, hverd]
  · intro hname hrun hct hfind2 htrust
    have hemp : ¬ (getRequestsByRunId store context.runId).isEmpty := by
      intro he
      rw [List.isEmpty_iff] at he
      rw [he] at hfind2
      exact absurd hfind2 (by simp)
    have hres : verifyCommitEligibility store ledger now context.runId tool.name =
        commitDeny
          "FAIL CLOSED: Approval request has expired. A new approval must be requested."
          (some req) := by
      simp only [verifyCommitEligibility, if_neg hrun, if_neg hname, hct,
        if_neg hemp, hfind2, if_neg (Nat.not_lt.mpr htrust),
        if_neg (show ¬ req.status ≠ .APPROVED from not_not.mpr hstat),
        if_neg (show ¬ req.reviewerVerdict ≠ some .PASS from not_not.mpr hverd),
        if_pos hexp]
    exact ⟨by rw [hres]; rfl, by rw [hres]; rfl⟩

/-- Witness for C10: the concrete expired APPROVED post-alert request is
allowed by the gate yet denied by the commit boundary. -/
theorem C10_approved_path_ignores_expiry_witness :
    (evaluateWithApproval plainGate postAlertTool .commit commitContext
      (some expiredApprovedStore)).allowed = true ∧
    (verifyCommitEligibility expiredApprovedStore [] 50 commitContext.runId
      postAlertTool.name).eligible = false :=
  ⟨(C10_approved_path_ignores_expiry plainGate postAlertTool .commit commitContext
      expiredApprovedStore expiredApprovedRequest 50 [] postAlertCommitDef
      (by decide) (by decide) (by decide) (by decide) (by decide)).1,
   ((C10_approved_path_ignores_expiry plainGate postAlertTool .commit commitContext
      expiredApprovedStore expiredApprovedRequest 50 [] postAlertCommitDef
      (by decide) (by decide) (by decide) (by decide) (by decide)).2
      (by decide) (by decide) (by decide) (by decide) (by decide)).1⟩

/-- A stage other than review and commit whose agent run completes passes
its output to the next stage and touches nothing else. -/
theorem stageBody_completed (env : OrchestratorEnv) (stage : WorkflowStage)
    (st : OrchState) (agent : AgentDefinition)
    (hagent : getAgentForStage env.workflow.agents stage = some agent)
    (hreview : stage ≠ .review)
    (hcommit : stage ≠ .commit)
    (hdone : (env.behavior stage st.reviewerVerdict).status = .completed) :
    stageBody env stage st = .cont { st with
      stagesEntered := st.stagesEntered ++ [stage]
      context := (env.behavior stage st.reviewerVerdict).output.getD "null"
      finalResult := (env.behavior stage st.reviewerVerdict).output } := by
  simp only [stageBody, hagent, if_neg (by simp [hcommit] :
    ¬ (stage = .commit ∧ st.reviewerVerdict = none)), if_neg hreview,
    if_neg (by simp [hreview] :
      ¬ (stage = .review ∧
        (env.behavior stage st.reviewerVerdict).reviewerVerdict = some .FAIL)),
    stageRest, if_neg (by simp [hdone] :
      ¬ (env.behavior stage st.reviewerVerdict).status = .requires_approval),
    if_neg (by simp [hdone] :
      ¬ (env.behavior stage st.reviewerVerdict).status = .failed)]

/-- The review stage with a FAIL verdict terminates the run as failed,
captures the verdict, logs the blocking event and leaves the store and the
commit-path instrumentation untouched. -/
theorem stageBody_review_fail (env : OrchestratorEnv) (st : OrchState)
    (agent : AgentDefinition)
    (hagent : getAgentForStage env.workflow.agents .review = some agent)
    (hfail : (env.behavior .review st.reviewerVerdict).reviewerVerdict =
      some .FAIL) :
    stageBody env .review st = .halt { st with
      stagesEntered := st.stagesEntered ++ [WorkflowStage.review]
      reviewerVerdict := some .FAIL
      finalStatus := .failed
      finalResult := (env.behavior .review st.reviewerVerdict).output
      finalError := some "Reviewer verdict: FAIL - commit stage blocked"
      log := st.log ++ [mkEvent env.workflow.domain env.workflow.name
        "orchestrator" env.options.runId .L0 .review
        "Workflow blocked: reviewer verdict FAIL"
        ["Commit stage blocked due to reviewer FAIL verdict"] []
        ((env.behavior .review st.reviewerVerdict).output.map
          (fun s => s.take 500))] } := by
  simp only [stageBody, hagent, if_neg (by simp :
    ¬ (WorkflowStage.review = .commit ∧ st.reviewerVerdict = none)),
    if_pos rfl, hfail, if_pos (And.intro rfl hfail)]
  simp

/-- `jsIndexOf` is `-1` or a valid index. -/
theorem jsIndexOf_eq_neg_one_or_nonneg (l : List WorkflowStage) (s : WorkflowStage) :
    jsIndexOf l s = -1 ∨ 0 ≤ jsIndexOf l s := by
  induction l with
  | nil => left; rfl
  | cons a rest ih =>
      by_cases h : a = s
      · right
        simp [jsIndexOf, h]
      · rcases ih with h1 | h1
        · left
          simp [jsIndexOf, h, h1]
        · by_cases h2 : jsIndexOf rest s = -1
          · left
            simp [jsIndexOf, h, h2]
          · right
            simp only [jsIndexOf, if_neg h, if_neg h2]
            omega

/-- `jsIndexOf` through a prefix not containing the element. -/
theorem jsIndexOf_append_of_not_mem (s : WorkflowStage)
    (pre rest : List WorkflowStage) (h : s ∉ pre) :
    jsIndexOf (pre ++ rest) s =
      if jsIndexOf rest s = -1 then -1 else jsIndexOf rest s + pre.length := by
  induction pre with
  | nil =>
      by_cases hc : jsIndexOf rest s = -1
      · simp [hc]
      · simp [hc]
  | cons a pre ih =>
      have ha : a ≠ s := fun he => h (he ▸ List.mem_cons_self a pre)
      have h' : s ∉ pre := fun hm => h (List.mem_cons_of_mem a hm)
      have hnn := jsIndexOf_eq_neg_one_or_nonneg rest s
      rw [List.cons_append]
      simp only [jsIndexOf, if_neg ha, ih h']
      by_cases hc : jsIndexOf rest s = -1
      · simp [hc]
      · have hge : 0 ≤ jsIndexOf rest s := hnn.resolve_left hc
        simp only [if_neg hc]
        rw [if_neg (show ¬ jsIndexOf rest s + (pre.length : Int) = -1 from by omega)]
        simp only [List.length_cons]
        push_cast
        omega

/-- Running the stage loop over completed stages followed by the review
stage with a FAIL verdict: the loop halts at the review stage with status
failed, the blocking event logged, exactly the preceding stages and review
entered, and the store and commit-path instrumentation untouched. -/
theorem runStages_review_fail (env : OrchestratorEnv) (post : List WorkflowStage) :
    ∀ (pre : List WorkflowStage) (st : OrchState),
      (∀ s ∈ pre, s ≠ .review ∧ s ≠ .commit ∧
        (getAgentForStage env.workflow.agents s).isSome ∧
        (env.behavior s st.reviewerVerdict).status = .completed) →
      (getAgentForStage env.workflow.agents .review).isSome →
      (env.behavior .review st.reviewerVerdict).reviewerVerdict = some .FAIL →
      ∃ st2, runStages env (pre ++ .review :: post) st = (st2, none) ∧
        st2.finalStatus = .failed ∧
        st2.finalError = some "Reviewer verdict: FAIL - commit stage blocked" ∧
        st2.stagesEntered = st.stagesEntered ++ pre ++ [WorkflowStage.review] ∧
        st2.store = st.store ∧
        st2.commitRequestsCreated = st.commitRequestsCreated ∧
        st2.log = st.log ++ [mkEvent env.workflow.domain env.workflow.name
          "orchestrator" env.options.runId .L0 .review
          "Workflow blocked: reviewer verdict FAIL"
          ["Commit stage blocked due to reviewer FAIL verdict"] []
          ((env.behavior .review st.reviewerVerdict).output.map
            (fun s => s.take 500))] := by
  intro pre
  induction pre with
  | nil =>
      intro st hpre hrev hfail
      obtain ⟨agent, hagent⟩ := Option.isSome_iff_exists.mp hrev
      refine ⟨{ st with
          stagesEntered := st.stagesEntered ++ [WorkflowStage.review]
          reviewerVerdict := some .FAIL
          finalStatus := .failed
          finalResult := (env.behavior .review st.reviewerVerdict).output
          finalError := some "Reviewer verdict: FAIL - commit stage blocked"
          log := st.log ++ [mkEvent env.workflow.domain env.workflow.name
            "orchestrator" env.options.runId .L0 .review
            "Workflow blocked: reviewer verdict FAIL"
            ["Commit stage blocked due to reviewer FAIL verdict"] []
            ((env.behavior .review st.reviewerVerdict).output.map
              (fun s => s.take 500))] }, ?_, rfl, rfl, by simp, rfl, rfl, rfl⟩
      show runStages env (.review :: post) st = _
      simp only [runStages, stageBody_review_fail env st agent hagent hfail]
  | cons s pre ih =>
      intro st hpre hrev hfail
      obtain ⟨hsr, hsc, hsagent, hsdone⟩ := hpre s (List.mem_cons_self s pre)
      obtain ⟨a, ha⟩ := Option.isSome_iff_exists.mp hsagent
      rw [List.cons_append]
      simp only [runStages, stageBody_completed env s st a ha hsr hsc hsdone]
      obtain ⟨st2, hrun, h1, h2, h3, h4, h5, h6⟩ := ih
        { st with
          stagesEntered := st.stagesEntered ++ [s]
          context := (env.behavior s st.reviewerVerdict).output.getD "null"
          finalResult := (env.behavior s st.reviewerVerdict).output }
        (fun x hx => hpre x (List.mem_cons_of_mem s hx)) hrev hfail
      refine ⟨st2, hrun, h1, h2, ?_, h4, h5, h6⟩
      rw [h3]
      simp

/-- C6: in every workflow run in which the review-stage agent produces a
FAIL verdict (and the stages before review complete normally), the
orchestrator terminates the run with status failed and the
"Reviewer verdict: FAIL - commit stage blocked" error, logs the
"Workflow blocked: reviewer verdict FAIL" audit event (warning
"Commit stage blocked due to reviewer FAIL verdict"), never enters the
commit stage, creates no approval request through the commit path, and
leaves the approval store untouched. -/
theorem C6_reviewer_fail_blocks_commit :
    ∀ (env : OrchestratorEnv) (initialStore : ApprovalStoreState)
      (pre post : List WorkflowStage),
      env.workflow.stages = pre ++ .review :: post →
      WorkflowStage.review ∉ pre →
      WorkflowStage.commit ∉ pre →
      env.workflow.name ≠ "" →
      env.workflow.agents ≠ [] →
      (∀ s ∈ pre, (getAgentForStage env.workflow.agents s).isSome ∧
        (env.behavior s env.options.reviewerVerdict).status = .completed) →
      (getAgentForStage env.workflow.agents .review).isSome →
      (env.behavior .review env.options.reviewerVerdict).reviewerVerdict =
        some .FAIL →
      ((runWorkflow env initialStore).result.status = .failed ∧
       (runWorkflow env initialStore).result.error =
         some "Reviewer verdict: FAIL - commit stage blocked" ∧
       (∃ ev ∈ (runWorkflow env initialStore).log,
         ev.intent = "Workflow blocked: reviewer verdict FAIL" ∧
         ev.warnings = ["Commit stage blocked due to reviewer FAIL verdict"]) ∧
       WorkflowStage.commit ∉ (runWorkflow env initialStore).stagesEntered ∧
       (runWorkflow env initialStore).commitRequestsCreated = [] ∧
       (runWorkflow env initialStore).store = initialStore) := by
  intro env initialStore pre post hstages hrnp hcnp hname hag hpre hrev hfail
  -- the workflow passes validation
  have hval : validateWorkflowDefinition env.workflow = none := by
    unfold validateWorkflowDefinition
    rw [if_neg hname,
      if_neg (show ¬ env.workflow.agents.isEmpty = true by
        simpa [List.isEmpty_iff] using hag),
      if_neg (show ¬ env.workflow.stages.isEmpty = true by
        simp [hstages])]
  -- the commit/review ordering check passes: review precedes any commit
  have hcond : ¬ (jsIndexOf env.workflow.stages .commit ≠ -1 ∧
      (jsIndexOf env.workflow.stages .review = -1 ∨
        jsIndexOf env.workflow.stages .commit <
          jsIndexOf env.workflow.stages .review)) := by
    rw [hstages]
    have hrIdx : jsIndexOf (pre ++ .review :: post) .review = pre.length := by
      rw [jsIndexOf_append_of_not_mem _ _ _ hrnp]
      simp [jsIndexOf]
    have hcIdx := jsIndexOf_append_of_not_mem .commit pre (.review :: post) hcnp
    have hc0 : jsIndexOf (WorkflowStage.review :: post) .commit = -1 ∨
        1 ≤ jsIndexOf (WorkflowStage.review :: post) .commit := by
      simp only [jsIndexOf,
        if_neg (show WorkflowStage.review ≠ .commit from by simp)]
      by_cases hff : jsIndexOf post .commit = -1
      · left
        simp [hff]
      · right
        rcases jsIndexOf_eq_neg_one_or_nonneg post .commit with h | h
        · exact absurd h hff
        · rw [if_neg hff]
          omega
    rintro ⟨hne, hor⟩
    rw [hrIdx] at hor
    rcases hc0 with h | h
    · rw [hcIdx, if_pos h] at hne
      exact hne rfl
    · rw [hcIdx, if_neg (by omega)] at hor
      rcases hor with h1 | h1 <;> omega
  -- run the stage loop
  obtain ⟨st2, hrun, h1, h2, h3, h4, h5, h6⟩ :=
    runStages_review_fail env post pre
      { store := initialStore
        log := [mkEvent env.workflow.domain env.workflow.name "orchestrator"
          env.options.runId .L0 .plan
          ("Starting workflow: " ++ env.workflow.name) [] [] none]
        context := env.options.input
        finalResult := none
        finalStatus := .completed
        finalError := none
        approvalRequestId := none
        reviewerVerdict := env.options.reviewerVerdict
        idCounter := 0
        stagesEntered := []
        commitRequestsCreated := [] }
      (fun s hs => ⟨fun he => hrnp (he ▸ hs), fun he => hcnp (he ▸ hs),
        (hpre s hs).1, (hpre s hs).2⟩) hrev hfail
  have hout : runWorkflow env initialStore =
      { result :=
          { runId := env.options.runId
            result := st2.finalResult
            events := []
            status := st2.finalStatus
            error := st2.finalError
            approvalRequestId := st2.approvalRequestId
            reviewerVerdict := st2.reviewerVerdict }
        log := st2.log ++ [mkEvent env.workflow.domain env.workflow.name
          "orchestrator" env.options.runId .L0 .commit
          ("Workflow completed with status: " ++ st2.finalStatus.asString)
          [] [] (some ((st2.finalResult.getD "null").take 500))]
        store := st2.store
        stagesEntered := st2.stagesEntered
        commitRequestsCreated := st2.commitRequestsCreated } := by
    simp only [runWorkflow, hval, if_neg hcond]
    rw [hstages, hrun]
  rw [hout]
  refine ⟨h1, h2, ?_, ?_, h5, h4⟩
  · refine ⟨mkEvent env.workflow.domain env.workflow.name
      "orchestrator" env.options.runId .L0 .review
      "Workflow blocked: reviewer verdict FAIL"
      ["Commit stage blocked due to reviewer FAIL verdict"] []
      ((env.behavior .review env.options.reviewerVerdict).output.map
        (fun s => s.take 500)), ?_, rfl, rfl⟩
    rw [h6]
    simp
  · rw [h3]
    simp
    intro hmem
    exact hcnp hmem

/-- Witness for C6: the concrete four-stage run whose reviewer fails. -/
theorem C6_reviewer_fail_blocks_commit_witness :
    ((runWorkflow reviewFailEnv emptyStore).result.status = .failed ∧
     (runWorkflow reviewFailEnv emptyStore).result.error =
       some "Reviewer verdict: FAIL - commit stage blocked" ∧
     (∃ ev ∈ (runWorkflow reviewFailEnv emptyStore).log,
       ev.intent = "Workflow blocked: reviewer verdict FAIL" ∧
       ev.warnings = ["Commit stage blocked due to reviewer FAIL verdict"]) ∧
     WorkflowStage.commit ∉ (runWorkflow reviewFailEnv emptyStore).stagesEntered ∧
     (runWorkflow reviewFailEnv emptyStore).commitRequestsCreated = [] ∧
     (runWorkflow reviewFailEnv emptyStore).store = emptyStore) :=
  C6_reviewer_fail_blocks_commit reviewFailEnv emptyStore
    [.plan, .execute] [.commit] rfl (by decide) (by decide) (by decide)
    (by decide) (by decide) (by decide) (by decide)

end AgentTrustLayer
